import Mathlib

/-!
Verification development for the weForth eForth core (src/src/ceforth.cpp).

The C++ source is shallowly embedded as executable Lean functions over an
explicit VM state record.  The companion header (ceforth.h / config.h) is not
part of the repository snapshot, so the few macros and container semantics it
provides (EXT_FLAG, STRLEN, alignment, the List container, attribute bits,
ENDL) are modelled from the specification, as noted at each definition.

Build-flavor choices, modelled from the spec:
  * DU (data unit) is the integer cell flavor; the spec states that the float
    flavor is a build-time option and not part of the core contract.
    DU values are Lean Int; cells stored in parameter memory are 32-bit
    little-endian two's complement (sizeof(DU) = 4).
  * DO_WASM build (this repository is the WASM Forth): DALIGN aligns to 4
    bytes and ss_dump prints only "ok" when not forced.
  * The host clock (millis) is modelled as the constant 0, so the time-slice
    check time_up() always reports expiry; the debug printf/rs_dump calls in
    the source write to stdout, not to the forth output sink, and are not part
    of the modelled output.
-/

/-- Whitespace test matching C isspace, used by the input stream operators. -/
def isWS (c : Char) : Bool :=
  c = ' ' || c = '\t' || c = '\n' || c = '\r' || c.toNat = 11 || c.toNat = 12

/-- Extraction operator "fin >> pad": skip leading whitespace, take the
longest run of non-whitespace.  Returns none when no token remains. -/
def extractToken (s : String) : Option (String × String) :=
  let l := s.toList.dropWhile (fun c => isWS c)
  match l with
  | [] => none
  | _ :: _ =>
    some (String.mk (l.takeWhile (fun c => !isWS c)),
          String.mk (l.dropWhile (fun c => !isWS c)))

/-- First token of an input stream, or the empty string (the value the C++
word() helper leaves in pad when the stream is exhausted). -/
def tokOf (s : String) : String :=
  match extractToken s with
  | some p => p.1
  | none => ""

/-- Split a character list at the first occurrence of delimiter c; the
delimiter is consumed and belongs to neither part (C++ getline). -/
def splitAtChar (c : Char) : List Char → List Char × List Char
  | [] => ([], [])
  | a :: t =>
    if a = c then ([], t)
    else
      let p := splitAtChar c t
      (a :: p.1, p.2)

/-- The getline(fin, pad, c) split lifted to String. -/
def scanStr (fin : String) (c : Char) : String × String :=
  let p := splitAtChar c fin.toList
  (String.mk p.1, String.mk p.2)

/-- Prefix test on character lists, for substring claims about the output. -/
def startsL : List Char → List Char → Bool
  | [], _ => true
  | _ :: _, [] => false
  | a :: p, b :: s => a = b && startsL p s

/-- Substring (infix) test on character lists. -/
def containsL (p : List Char) : List Char → Bool
  | [] => p.isEmpty
  | b :: t => startsL p (b :: t) || containsL p t

/-- Substring test on strings: strContains s sub is true iff sub occurs in s. -/
def strContains (s sub : String) : Bool := containsL sub.toList s.toList

/-- Modelled from the spec: ALIGN2, rounding up to the 2-byte IU alignment
(the macro lives in the missing ceforth.h). -/
def align2 (n : Nat) : Nat := ((n + 1) / 2) * 2

/-- Modelled from the spec: ALIGN16, used for USER_AREA. -/
def align16 (n : Nat) : Nat := ((n + 15) / 16) * 16

/-- Modelled from the spec: DALIGN, data-unit alignment, 4 bytes on the WASM
build of this repository. -/
def dalign (n : Nat) : Nat := ((n + 3) / 4) * 4

/-- Modelled from the spec: STRLEN computes strlen+1 (the NUL) rounded up to
IU alignment so the IU following an inline string stays aligned. -/
def STRLEN (s : String) : Nat := align2 (s.length + 1)

/-- Modelled from the spec: EXT_FLAG is the high bit of the 16-bit IU. -/
def EXT_FLAG : Nat := 0x8000

/-- Primitive opcodes, sequenced exactly as the forth_opcode enum:
EXIT=0|EXT_FLAG, NOP, NEXT, LOOP, LIT, VAR, STR, DOTQ, BRAN, ZBRAN, VBRAN,
DOES, FOR, DO, KEY, MAX_OP. -/
def oEXIT : Nat := 0x8000
def oNOP : Nat := 0x8001
def oNEXT : Nat := 0x8002
def oLOOP : Nat := 0x8003
def oLIT : Nat := 0x8004
def oVAR : Nat := 0x8005
def oSTR : Nat := 0x8006
def oDOTQ : Nat := 0x8007
def oBRAN : Nat := 0x8008
def oZBRAN : Nat := 0x8009
def oVBRAN : Nat := 0x800A
def oDOES : Nat := 0x800B
def oFOR : Nat := 0x800C
def oDO : Nat := 0x800D
def oKEY : Nat := 0x800E
def MAX_OP : Nat := 0x800F

/-- USER_AREA = ALIGN16(MAX_OP & ~EXT_FLAG) = 16. -/
def USER_AREA : Nat := align16 (MAX_OP - EXT_FLAG)

/-- IS_PRIM(w) = (w & EXT_FLAG) && (w < MAX_OP). -/
def IS_PRIM (w : Nat) : Bool := (EXT_FLAG ≤ w) && (w < MAX_OP)

/-- Modelled from the spec: the two attribute bits of a dictionary entry.
Only their presence as distinct bits matters (dict_dump prints attr & 0x3). -/
def IMM_ATTR : Nat := 1
def UDF_ATTR : Nat := 2

/-- UINT(v): reinterpret a DU as an unsigned 32-bit quantity. -/
def UINT (v : Int) : Nat := (v % (2 ^ 32)).toNat

/-- Digit character for printing in a radix, lowercase as C++ streams emit. -/
def digitChar (d : Nat) : Char :=
  if d < 10 then Char.ofNat (48 + d) else Char.ofNat (87 + d)

/-- Digit emission loop, fueled by the number itself. -/
def natToBaseGo (b : Nat) : Nat → Nat → List Char
  | 0, _ => []
  | _ + 1, 0 => []
  | f + 1, n + 1 => natToBaseGo b f ((n + 1) / b) ++ [digitChar ((n + 1) % b)]

/-- Render a Nat in radix b (b = 8, 10 or 16 as C++ streams support). -/
def natToBase (b n : Nat) : String :=
  if n = 0 then "0" else String.mk (natToBaseGo b n n)

/-- Numeric value of a character as a strtol digit; 99 marks a non-digit. -/
def digVal (c : Char) : Nat :=
  if 48 ≤ c.toNat ∧ c.toNat ≤ 57 then c.toNat - 48
  else if 97 ≤ c.toNat ∧ c.toNat ≤ 122 then c.toNat - 87
  else if 65 ≤ c.toNat ∧ c.toNat ≤ 90 then c.toNat - 55
  else 99

/-- C strtol on a character list in radix b.  Returns the parsed value and
the error flag of parse_number, i.e. whether the end pointer stopped before
the terminating NUL.  Integer overflow (ERANGE) cannot occur in the
unbounded model; the claims only involve small literals. -/
def strtol (l : List Char) (b : Nat) : Int × Bool :=
  let l1 := l.dropWhile (fun c => isWS c)
  let sgn : Bool × List Char :=
    match l1 with
    | '-' :: t => (true, t)
    | '+' :: t => (false, t)
    | _ => (false, l1)
  let l2 := sgn.2
  let l3 :=
    if b = 16 then
      match l2 with
      | '0' :: c :: d :: t =>
        if (c = 'x' ∨ c = 'X') ∧ digVal d < 16 then d :: t else l2
      | _ => l2
    else l2
  let ds := l3.takeWhile (fun c => digVal c < b)
  let rest := l3.dropWhile (fun c => digVal c < b)
  if ds.isEmpty then (0, !l.isEmpty)
  else
    let n : Nat := ds.foldl (fun a c => a * b + digVal c) 0
    ((if sgn.1 then -(n : Int) else (n : Int)), !rest.isEmpty)

/-- VM states: typedef enum { STOP=0, HOLD, QUERY, NEST, IO } vm_state. -/
inductive VMState where
  | stop
  | hold
  | query
  | nesting
  | iow
deriving DecidableEq, Repr

/-- Dictionary entry.  The name pointer into pmem is modelled as the string
itself; xt, the native function pointer, is modelled as an index into the
built-in behavior table (xtoff); pfa is the parameter-field offset. -/
structure Code where
  name : String
  xt : Nat
  attr : Nat
  pfa : Nat
deriving DecidableEq, Repr

def defaultCode : Code := ⟨"", 0, 0, 0⟩

/-- The whole VM state: the global variables of ceforth.cpp.  pmem is the
byte buffer with its write index pidx (HERE); rewinding pidx leaves the bytes
in place exactly as the C++ List container does.  base and dflt are pointers
into pmem, modelled as offsets.  fin/pad model the input stream and buffer;
out accumulates every byte written to fout (the text the host callback
receives); obase is the output stream's basefield. -/
structure VMSt where
  ss : Array Int
  rs : Array Int
  top : Int
  dict : Array Code
  pmem : Array Nat
  pidx : Nat
  baseOfs : Nat
  dfltOfs : Nat
  compile : Bool
  ucase : Bool
  vm : VMState
  ip : Nat
  fin : String
  pad : String
  out : String
  obase : Nat
deriving DecidableEq, Repr

/-- Initial values of the C++ globals at program start. -/
def st0 : VMSt :=
  { ss := #[], rs := #[], top := -1, dict := #[], pmem := #[], pidx := 0,
    baseOfs := 0, dfltOfs := 0, compile := false, ucase := false,
    vm := VMState.query, ip := 0, fin := "", pad := "", out := "", obase := 10 }

/-- Write one byte of parameter memory; the C++ buffer is preallocated and
zero-initialized, so writing past the current extent zero-fills. -/
def pmemSet (m : Array Nat) (a b : Nat) : Array Nat :=
  if a < m.size then m.setD a b
  else (m ++ Array.mkArray (a - m.size) 0).push b

/-- Write a run of bytes starting at offset a. -/
def writeBytes (m : Array Nat) (a : Nat) : List Nat → Array Nat
  | [] => m
  | b :: t => writeBytes (pmemSet m a (b % 256)) (a + 1) t

/-- IGET: fetch a 16-bit little-endian IU from pmem. -/
def igetM (m : Array Nat) (a : Nat) : Nat := m.getD a 0 + 256 * m.getD (a + 1) 0

/-- The four little-endian bytes of a DU cell (32-bit two's complement). -/
def duBytes (v : Int) : List Nat :=
  let n := UINT v
  [n % 256, n / 256 % 256, n / 65536 % 256, n / 16777216 % 256]

/-- CELL: fetch a DU cell from pmem, reinterpreting as signed 32-bit. -/
def cellM (m : Array Nat) (a : Nat) : Int :=
  let n := m.getD a 0 + 256 * m.getD (a + 1) 0 + 65536 * m.getD (a + 2) 0 +
    16777216 * m.getD (a + 3) 0
  if n < 2 ^ 31 then (n : Int) else (n : Int) - 2 ^ 32

/-- Read the NUL-terminated string at offset a (fueled by the buffer size). -/
def readCharsGo (m : Array Nat) : Nat → Nat → List Char
  | _, 0 => []
  | a, f + 1 =>
    let b := m.getD a 0
    if b = 0 then [] else Char.ofNat (b % 256) :: readCharsGo m (a + 1) f

def readStrM (m : Array Nat) (a : Nat) : String :=
  String.mk (readCharsGo m a (m.size + 1))

/-- Pop the last element of a bounded stack; underflow is a programmer error
per the spec and is modelled as yielding 0 on an empty stack. -/
def arrPop (a : Array Int) : Int × Array Int :=
  if a.size = 0 then (0, a) else (a.getD (a.size - 1) 0, a.pop)

/-- Negative indexing v[-i] of the C++ List container. -/
def arrGetNeg (a : Array Int) (i : Nat) : Int := a.getD (a.size - i) 0

/-- In-place update of v[-1]. -/
def arrSetLast (a : Array Int) (v : Int) : Array Int := a.setD (a.size - 1) v

/-- ENDL, modelled from the spec: a newline in the buffered output sink. -/
def ENDL : String := "\n"

/-- Append text to the forth output sink fout. -/
def emit (st : VMSt) (s : String) : VMSt := { st with out := st.out ++ s }

/-- PUSH(v): stash the cached top onto ss, cache v. -/
def PUSH (v : Int) (st : VMSt) : VMSt :=
  { st with ss := st.ss.push st.top, top := v }

/-- POP(): return the cached top, refill it from ss. -/
def POPs (st : VMSt) : Int × VMSt :=
  let p := arrPop st.ss
  (st.top, { st with top := p.1, ss := p.2 })

/-- Bare ss.pop() (used by swap, drop, do, ...), leaving top untouched. -/
def ssPop (st : VMSt) : Int × VMSt :=
  let p := arrPop st.ss
  (p.1, { st with ss := p.2 })

/-- Name comparison of find: strcasecmp when ucase is set, strcmp otherwise. -/
def streq (uc : Bool) (a b : String) : Bool :=
  if uc then a.map Char.toLower = b.map Char.toLower else a = b

/-- Backward scan of find, from entry i down to entry 1 (0 is the sentinel). -/
def findGo (d : Array Code) (uc : Bool) (s : String) : Nat → Nat
  | 0 => 0
  | i + 1 =>
    if streq uc s ((d.getD (i + 1) defaultCode).name) then i + 1
    else findGo d uc s i

/-- find(s): dictionary index of the latest entry named s, or 0. -/
def find (st : VMSt) (s : String) : Nat :=
  findGo st.dict st.ucase s (st.dict.size - 1)

/-- add_iu: append one IU (two bytes, little-endian) at HERE. -/
def add_iu (i : Nat) (st : VMSt) : VMSt :=
  let v := i % 65536
  { st with pmem := writeBytes st.pmem st.pidx [v % 256, v / 256],
            pidx := st.pidx + 2 }

/-- add_du: append one DU cell (four bytes) at HERE. -/
def add_du (v : Int) (st : VMSt) : VMSt :=
  { st with pmem := writeBytes st.pmem st.pidx (duBytes v),
            pidx := st.pidx + 4 }

/-- add_str: append the string, its NUL, and IU-alignment padding; the
return value is the aligned size STRLEN(s). -/
def add_str (s : String) (st : VMSt) : Nat × VMSt :=
  let sz := STRLEN s
  let bytes := (s.toList.map (fun c => c.toNat % 256)) ++
    List.replicate (sz - s.length) 0
  (sz, { st with pmem := writeBytes st.pmem st.pidx bytes,
                 pidx := st.pidx + sz })

/-- The IU that add_w compiles for a reference w: a primitive token compiles
itself (op_prim stores the opcode as its xt), a colon word compiles
pfa | EXT_FLAG, and a built-in compiles its xtoff. -/
def add_w_ip (w : Nat) (st : VMSt) : Nat :=
  if IS_PRIM w then w
  else
    let c := st.dict.getD w defaultCode
    if c.attr % 4 / 2 = 1 then c.pfa + EXT_FLAG else c.xt

/-- add_w: append the encoded reference into pmem. -/
def add_w (w : Nat) (st : VMSt) : VMSt := add_iu (add_w_ip w st) st

/-- add_var: emit a VAR or VBRAN header; VBRAN gets a zero offset field, the
write index is data-aligned (WASM build), and VAR gets a zero cell. -/
def add_var (op : Nat) (st : VMSt) : VMSt :=
  let st := add_w op st
  let st := if op = oVBRAN then add_iu 0 st else st
  let st := { st with pidx := dalign st.pidx }
  if op = oVAR then add_du 0 st else st

/-- colon(name): write the name field into pmem, then push a user-defined
Code whose pfa is HERE after the name. -/
def colon (name : String) (st : VMSt) : VMSt :=
  let p := add_str name st
  { p.2 with dict := p.2.dict.push ⟨name, 0, UDF_ATTR, p.2.pidx⟩ }

/-- def_word(name): reject an empty name with " name?", warn (and continue)
on redefinition with "name reDef? ", then create the colon header.  The Nat
result is the C++ int return (1 = created). -/
def def_word (name : String) (st : VMSt) : Nat × VMSt :=
  if name = "" then (0, emit st (" name?" ++ ENDL))
  else
    let st := if find st name ≠ 0 then emit st (name ++ " reDef? " ++ ENDL) else st
    (1, colon name st)

/-- word(): read the next idiom into pad; an exhausted stream clears pad. -/
def word (st : VMSt) : String × VMSt :=
  match extractToken st.fin with
  | some p => (p.1, { st with pad := p.1, fin := p.2 })
  | none => ("", { st with pad := "" })

/-- scan(c): getline into pad up to delimiter c. -/
def scan (c : Char) (st : VMSt) : String × VMSt :=
  let p := scanStr st.fin c
  (p.1, { st with pad := p.1, fin := p.2 })

/-- parse_number: apply a %, &, #, $ radix override, else the BASE cell,
then strtol; the Bool is the error flag. -/
def parse_number (st : VMSt) (idiom : String) : Int × Bool :=
  let b0 := igetM st.pmem st.baseOfs
  let pr : Nat × List Char :=
    match idiom.toList with
    | '%' :: t => (2, t)
    | '&' :: t => (10, t)
    | '#' :: t => (10, t)
    | '$' :: t => (16, t)
    | l => (b0, l)
  strtol pr.2 pr.1

/-- s_quote: in compile mode emit the string opcode plus the inline string;
in interpret mode write a transient copy at HERE, push its address and
(aligned) length, and rewind HERE. -/
def s_quote (op : Nat) (st : VMSt) : VMSt :=
  let sp := scan '"' st
  let s := sp.1.drop 1
  let st1 := sp.2
  if st1.compile then (add_str s (add_w op st1)).2
  else
    let h0 := st1.pidx
    let p := add_str s st1
    let st4 := PUSH (Int.ofNat p.1) (PUSH (Int.ofNat h0) p.2)
    { st4 with pidx := h0 }

/-- ss_dump on the WASM build prints only "ok" when not forced (the only way
the core calls it). -/
def ss_dump (st : VMSt) : VMSt := emit st ("ok" ++ ENDL)

/-- Render an Int the way the C++ output stream does under the current
basefield: decimal is signed, hex prints the 32-bit pattern unsigned. -/
def printDU (obase : Nat) (v : Int) : String :=
  if obase = 10 then
    if v < 0 then "-" ++ natToBase 10 (-v).toNat else natToBase 10 v.toNat
  else natToBase obase (UINT v)

/-- IS_UDF / IS_IMM attribute tests on a dictionary index. -/
def IS_UDF (st : VMSt) (w : Nat) : Bool :=
  (st.dict.getD w defaultCode).attr % 4 / 2 = 1
def IS_IMM (st : VMSt) (w : Nat) : Bool :=
  (st.dict.getD w defaultCode).attr % 2 = 1

/-- UNNEST(): pop the return address; a zero address stops the VM, a nonzero
one parks it in HOLD (forth_vm decides whether to resume). -/
def unnest (st : VMSt) : VMSt :=
  let p := arrPop st.rs
  let ip := UINT p.1
  { st with rs := p.2, ip := ip,
            vm := if ip ≠ 0 then VMState.hold else VMState.stop }

/-- Write an IU at an arbitrary pmem offset (used by the DOES opcode). -/
def setIUat (a v : Nat) (st : VMSt) : VMSt :=
  let x := v % 65536
  { st with pmem := writeBytes st.pmem a [x % 256, x / 256] }

/-- CODE("dup", PUSH(top)). -/
def dupB (st : VMSt) : VMSt := PUSH st.top st

/-- CODE("drop", top = ss.pop()). -/
def dropB (st : VMSt) : VMSt :=
  let p := arrPop st.ss
  { st with top := p.1, ss := p.2 }

/-- CODE("over", PUSH(ss[-1])). -/
def overB (st : VMSt) : VMSt := PUSH (arrGetNeg st.ss 1) st

/-- CODE("swap", DU n = ss.pop(); PUSH(n)). -/
def swapB (st : VMSt) : VMSt :=
  let p := ssPop st
  PUSH p.1 p.2

/-- CODE("+", top += ss.pop()). -/
def addB (st : VMSt) : VMSt :=
  let p := ssPop st
  { p.2 with top := p.2.top + p.1 }

/-- CODE("*", top *= ss.pop()). -/
def mulB (st : VMSt) : VMSt :=
  let p := ssPop st
  { p.2 with top := p.2.top * p.1 }

/-- CODE("-", top = ss.pop() - top). -/
def subB (st : VMSt) : VMSt :=
  let p := ssPop st
  { p.2 with top := p.1 - p.2.top }

/-- CODE("decimal", fout << setbase(*base = 10)). -/
def decimalB (st : VMSt) : VMSt :=
  { setIUat st.baseOfs 10 st with obase := 10 }

/-- CODE("hex", fout << setbase(*base = 16)). -/
def hexB (st : VMSt) : VMSt :=
  { setIUat st.baseOfs 16 st with obase := 16 }

/-- CODE(".", fout << POP() << " "). -/
def dotB (st : VMSt) : VMSt :=
  let p := POPs st
  emit p.2 (printDU p.2.obase p.1 ++ " ")

/-- CODE("cr", fout << ENDL). -/
def crB (st : VMSt) : VMSt := emit st ENDL

/-- CODE("[", compile = false). -/
def lbracketB (st : VMSt) : VMSt := { st with compile := false }

/-- CODE("]", compile = true). -/
def rbracketB (st : VMSt) : VMSt := { st with compile := true }

/-- IMMD("do", add_w(DO); PUSH(HERE)). -/
def doB (st : VMSt) : VMSt :=
  let st := add_w oDO st
  PUSH (Int.ofNat st.pidx) st

/-- CODE("i", PUSH(rs[-1])). -/
def iB (st : VMSt) : VMSt := PUSH (arrGetNeg st.rs 1) st

/-- IMMD("loop", add_w(LOOP); add_iu(POP())). -/
def loopB (st : VMSt) : VMSt :=
  let st := add_w oLOOP st
  let p := POPs st
  add_iu (UINT p.1) p.2

/-- CODE(">r", rs.push(POP())). -/
def torB (st : VMSt) : VMSt :=
  let p := POPs st
  { p.2 with rs := p.2.rs.push p.1 }

/-- CODE("r>", PUSH(rs.pop())). -/
def fromrB (st : VMSt) : VMSt :=
  let p := arrPop st.rs
  PUSH p.1 { st with rs := p.2 }

/-- CODE("r@", PUSH(rs[-1])). -/
def ratB (st : VMSt) : VMSt := PUSH (arrGetNeg st.rs 1) st

/-- CODE(":", compile = def_word(word())). -/
def colonB (st : VMSt) : VMSt :=
  let w := word st
  let r := def_word w.1 w.2
  { r.2 with compile := r.1 ≠ 0 }

/-- IMMD(";", add_w(EXIT); compile = false). -/
def semiB (st : VMSt) : VMSt :=
  { add_w oEXIT st with compile := false }

/-- CODE("exit", UNNEST()). -/
def exitB (st : VMSt) : VMSt := unnest st

/-- CODE("variable", def_word(word()); add_var(VAR)); the int returned by
def_word is discarded. -/
def variableB (st : VMSt) : VMSt :=
  let w := word st
  let r := def_word w.1 w.2
  add_var oVAR r.2

/-- CODE("constant", def_word(word()); add_w(LIT); add_du(POP()); add_w(EXIT)). -/
def constantB (st : VMSt) : VMSt :=
  let w := word st
  let r := def_word w.1 w.2
  let st := add_w oLIT r.2
  let p := POPs st
  add_w oEXIT (add_du p.1 p.2)

/-- CODE("create", def_word(word()); add_var(VBRAN)). -/
def createB (st : VMSt) : VMSt :=
  let w := word st
  let r := def_word w.1 w.2
  add_var oVBRAN r.2

/-- IMMD("does>", add_w(DOES)). -/
def doesB (st : VMSt) : VMSt := add_w oDOES st

/-- CODE("@", w = UINT(POP()); PUSH(w < USER_AREA ? IGET(w) : CELL(w))). -/
def fetchB (st : VMSt) : VMSt :=
  let p := POPs st
  let w := UINT p.1
  PUSH (if w < USER_AREA then Int.ofNat (igetM p.2.pmem w) else cellM p.2.pmem w) p.2

/-- CODE("!", IU w = UINT(POP()); CELL(w) = POP()). -/
def storeB (st : VMSt) : VMSt :=
  let p := POPs st
  let w := UINT p.1
  let q := POPs p.2
  { q.2 with pmem := writeBytes q.2.pmem w (duBytes q.1) }

/-- CODE(",", DU n = POP(); add_du(n)). -/
def commaB (st : VMSt) : VMSt :=
  let p := POPs st
  add_du p.1 p.2

/-- CODE("here", PUSH(HERE)). -/
def hereB (st : VMSt) : VMSt := PUSH (Int.ofNat st.pidx) st

/-- The tick word: CODE("'", IU w = find(word()); if (w) PUSH(w)). -/
def tickB (st : VMSt) : VMSt :=
  let p := word st
  let w := find p.2 p.1
  if w ≠ 0 then PUSH (Int.ofNat w) p.2 else p.2

/-- Code::exec(ix): dispatch a built-in by its xtoff.  The modelled xtoff of
a built-in is its position in the dict_compile table below; an offset outside
the table (never produced by the model's compiler) is a no-op. -/
def execBuiltin (ix : Nat) (st : VMSt) : VMSt :=
  match ix with
  | 0 => st
  | 1 => dupB st
  | 2 => dropB st
  | 3 => overB st
  | 4 => swapB st
  | 5 => addB st
  | 6 => mulB st
  | 7 => subB st
  | 8 => decimalB st
  | 9 => hexB st
  | 10 => dotB st
  | 11 => crB st
  | 12 => lbracketB st
  | 13 => rbracketB st
  | 14 => s_quote oSTR st
  | 15 => s_quote oDOTQ st
  | 16 => doB st
  | 17 => iB st
  | 18 => loopB st
  | 19 => torB st
  | 20 => fromrB st
  | 21 => ratB st
  | 22 => colonB st
  | 23 => semiB st
  | 24 => exitB st
  | 25 => variableB st
  | 26 => constantB st
  | 27 => createB st
  | 28 => doesB st
  | 29 => fetchB st
  | 30 => storeB st
  | 31 => commaB st
  | 32 => hereB st
  | 33 => tickB st
  | _ => st

/-- dict_compile: the built-in dictionary, in the source's order (restricted
to the words this development exercises; each entry is translated from its
CODE/IMMD line).  The xt field is the entry's table position; immediate
words carry IMM_ATTR. -/
def builtinTable : List Code :=
  [⟨"nul ", 0, 0, 0⟩,
   ⟨"dup", 1, 0, 0⟩,
   ⟨"drop", 2, 0, 0⟩,
   ⟨"over", 3, 0, 0⟩,
   ⟨"swap", 4, 0, 0⟩,
   ⟨"+", 5, 0, 0⟩,
   ⟨"*", 6, 0, 0⟩,
   ⟨"-", 7, 0, 0⟩,
   ⟨"decimal", 8, 0, 0⟩,
   ⟨"hex", 9, 0, 0⟩,
   ⟨".", 10, 0, 0⟩,
   ⟨"cr", 11, 0, 0⟩,
   ⟨"[", 12, 0, 0⟩,
   ⟨"]", 13, 0, 0⟩,
   ⟨"s\"", 14, IMM_ATTR, 0⟩,
   ⟨".\"", 15, IMM_ATTR, 0⟩,
   ⟨"do", 16, IMM_ATTR, 0⟩,
   ⟨"i", 17, 0, 0⟩,
   ⟨"loop", 18, IMM_ATTR, 0⟩,
   ⟨">r", 19, 0, 0⟩,
   ⟨"r>", 20, 0, 0⟩,
   ⟨"r@", 21, 0, 0⟩,
   ⟨":", 22, 0, 0⟩,
   ⟨";", 23, IMM_ATTR, 0⟩,
   ⟨"exit", 24, 0, 0⟩,
   ⟨"variable", 25, 0, 0⟩,
   ⟨"constant", 26, 0, 0⟩,
   ⟨"create", 27, 0, 0⟩,
   ⟨"does>", 28, IMM_ATTR, 0⟩,
   ⟨"@", 29, 0, 0⟩,
   ⟨"!", 30, 0, 0⟩,
   ⟨",", 31, 0, 0⟩,
   ⟨"here", 32, 0, 0⟩,
   ⟨"'", 33, 0, 0⟩]

def dict_compile (st : VMSt) : VMSt :=
  { st with dict := builtinTable.foldl (fun d c => d.push c) st.dict }

/-- One fetch-dispatch-advance step of nest(): fetch the IU at IP, advance
IP, and dispatch exactly as the source's switch. -/
def nestStep (st : VMSt) : VMSt :=
  let ix := igetM st.pmem st.ip
  let st : VMSt := { st with ip := st.ip + 2 }
  if ix = oEXIT then unnest st
  else if ix = oNOP then st
  else if ix = oNEXT then
    let v := arrGetNeg st.rs 1 - 1
    let rs1 := arrSetLast st.rs v
    if v > -1 then { st with rs := rs1, ip := igetM st.pmem st.ip }
    else { st with rs := (arrPop rs1).2, ip := st.ip + 2 }
  else if ix = oLOOP then
    let v := arrGetNeg st.rs 1 + 1
    let rs1 := arrSetLast st.rs v
    if arrGetNeg rs1 2 > v then { st with rs := rs1, ip := igetM st.pmem st.ip }
    else { st with rs := (arrPop (arrPop rs1).2).2, ip := st.ip + 2 }
  else if ix = oLIT then
    { st with ss := st.ss.push st.top, top := cellM st.pmem st.ip,
              ip := st.ip + 4 }
  else if ix = oVAR then unnest (PUSH (Int.ofNat (dalign st.ip)) st)
  else if ix = oSTR then
    let s := readStrM st.pmem st.ip
    let st := PUSH (Int.ofNat (STRLEN s)) (PUSH (Int.ofNat st.ip) st)
    { st with ip := st.ip + STRLEN s }
  else if ix = oDOTQ then
    let s := readStrM st.pmem st.ip
    { emit st s with ip := st.ip + STRLEN s }
  else if ix = oBRAN then { st with ip := igetM st.pmem st.ip }
  else if ix = oZBRAN then
    let p := POPs st
    { p.2 with ip := if p.1 ≠ 0 then p.2.ip + 2 else igetM p.2.pmem p.2.ip }
  else if ix = oVBRAN then
    let st := PUSH (Int.ofNat (dalign (st.ip + 2))) st
    let t := igetM st.pmem st.ip
    let st := { st with ip := t }
    if t = 0 then unnest st else st
  else if ix = oDOES then
    let last := st.dict.getD (st.dict.size - 1) defaultCode
    unnest (setIUat (last.pfa + 2) st.ip st)
  else if ix = oFOR then
    let p := POPs st
    { p.2 with rs := p.2.rs.push p.1 }
  else if ix = oDO then
    let q := ssPop st
    let st := { q.2 with rs := q.2.rs.push q.1 }
    let p := POPs st
    { p.2 with rs := p.2.rs.push p.1 }
  else if ix = oKEY then { st with vm := VMState.iow }
  else if EXT_FLAG ≤ ix then
    { st with rs := st.rs.push (Int.ofNat st.ip), ip := ix - EXT_FLAG }
  else execBuiltin ix st

/-- The nest() while loop, fueled: run steps while VM==NEST and IP is
nonzero. -/
def nestLoop : Nat → VMSt → VMSt
  | 0, st => st
  | f + 1, st =>
    if st.vm = VMState.nesting ∧ st.ip ≠ 0 then nestLoop f (nestStep st)
    else st

/-- nest(): activate the VM then run the loop. -/
def nest (fuel : Nat) (st : VMSt) : VMSt :=
  nestLoop fuel { st with vm := VMState.nesting }

/-- CALL(w): colon words get a zero return sentinel and enter nest; built-ins
run their native function. -/
def CALL (fuel : Nat) (w : Nat) (st : VMSt) : VMSt :=
  if IS_UDF st w then
    nest fuel { st with rs := st.rs.push 0, ip := (st.dict.getD w defaultCode).pfa }
  else execBuiltin (st.dict.getD w defaultCode).xt st

/-- forth_core(idiom): dictionary lookup, then compile-or-execute, else
number parsing.  Note the source has no early return after the error branch:
the error branch clears the compile flag and then control falls into the
number code, so PUSH(n) still runs. -/
def forth_core (fuel : Nat) (idiom : String) (st : VMSt) : VMSt :=
  let st : VMSt := { st with vm := VMState.query }
  let w := find st idiom
  if w ≠ 0 then
    if st.compile && !IS_IMM st w then add_w w st
    else CALL fuel w st
  else
    let pn := parse_number st idiom
    let st1 :=
      if pn.2 then
        { emit st (idiom ++ "? " ++ ENDL) with
          compile := false, vm := VMState.stop }
      else st
    if st1.compile then add_du pn.1 (add_w oLIT st1)
    else PUSH pn.1 st1

/-- The token loop of forth_vm: parse a word, send it to forth_core, and
yield whenever the VM parks in HOLD (the modelled time slice is always
expired). -/
def vmLoop (fuel : Nat) : Nat → VMSt → VMSt
  | 0, st => st
  | f + 1, st =>
    match extractToken st.fin with
    | none => st
    | some p =>
      let st1 := forth_core fuel p.1 { st with pad := p.1, fin := p.2 }
      if st1.vm = VMState.hold then st1 else vmLoop fuel f st1

/-- forth_vm(line): resume a held/IO-suspended task or refresh the input
buffer, run the token loop, then either save the context (yield = true) or
print the stack prompt.  The Bool result is the C++ nonzero return. -/
def forth_vm (fuel : Nat) (line : String) (st : VMSt) : Bool × VMSt :=
  let resume := st.vm = VMState.hold || st.vm = VMState.iow
  let st :=
    if resume then
      let p := arrPop st.rs
      { st with rs := p.2, ip := UINT p.1 }
    else { st with fin := line }
  let st :=
    if resume then
      let st1 := nest fuel st
      if st1.vm = VMState.hold then st1 else vmLoop fuel fuel st1
    else vmLoop fuel fuel st
  let yld := st.vm = VMState.hold || st.vm = VMState.iow
  if yld then (true, { st with rs := st.rs.push (Int.ofNat st.ip) })
  else (false, if !st.compile then ss_dump st else st)

/-- The host driver loop per input line: call forth_vm until it stops
yielding (outer() in the source). -/
def forth_line : Nat → String → VMSt → VMSt
  | 0, _, st => st
  | f + 1, line, st =>
    let r := forth_vm 32 line st
    if r.1 then forth_line f line r.2 else r.2

/-- forth_init(): the static init guard of the source is initialized to
false and never set to true, so the body runs on every call: allocate the
base and dflt user cells at HERE, pad the user area, compile the dictionary. -/
def padUser : Nat → VMSt → VMSt
  | 0, st => st
  | k + 1, st => padUser k (add_iu 0xffff st)

def forth_init (st : VMSt) : VMSt :=
  let st : VMSt := { st with baseOfs := st.pidx }
  let st := add_iu 10 st
  let st : VMSt := { st with dfltOfs := st.pidx }
  let st := add_iu 0 st
  let st := padUser ((USER_AREA - st.pidx + 1) / 2) st
  dict_compile st

/-- Boot the VM and process a list of input lines through the driver. -/
def runLines (lines : List String) : VMSt :=
  lines.foldl (fun st l => forth_line 3 l st) (forth_init st0)

/-- Concrete interpret-mode state for the s_quote witness. -/
def stC7 : VMSt := { st0 with fin := " hello\" tail" }

/-- Concrete state for the tick witness: the next token is unknown. -/
def stC9 : VMSt := { forth_init st0 with fin := " nosuchword rest" }

/-- Concrete state for the missing-name witness: the input is exhausted. -/
def stC10 : VMSt := { forth_init st0 with fin := "" }

/-- Concrete redefinition state for the def_word witness: the dictionary
already holds a word named dup. -/
def stC8 : VMSt := forth_init st0

/-- The built-in dictionary written out as a literal, the base of the
concrete machine states below. -/
def dictInit : Array Code :=
  #[(⟨"nul ", 0, 0, 0⟩ : Code),
    (⟨"dup", 1, 0, 0⟩ : Code),
    (⟨"drop", 2, 0, 0⟩ : Code),
    (⟨"over", 3, 0, 0⟩ : Code),
    (⟨"swap", 4, 0, 0⟩ : Code),
    (⟨"+", 5, 0, 0⟩ : Code),
    (⟨"*", 6, 0, 0⟩ : Code),
    (⟨"-", 7, 0, 0⟩ : Code),
    (⟨"decimal", 8, 0, 0⟩ : Code),
    (⟨"hex", 9, 0, 0⟩ : Code),
    (⟨".", 10, 0, 0⟩ : Code),
    (⟨"cr", 11, 0, 0⟩ : Code),
    (⟨"[", 12, 0, 0⟩ : Code),
    (⟨"]", 13, 0, 0⟩ : Code),
    (⟨"s\"", 14, 1, 0⟩ : Code),
    (⟨".\"", 15, 1, 0⟩ : Code),
    (⟨"do", 16, 1, 0⟩ : Code),
    (⟨"i", 17, 0, 0⟩ : Code),
    (⟨"loop", 18, 1, 0⟩ : Code),
    (⟨">r", 19, 0, 0⟩ : Code),
    (⟨"r>", 20, 0, 0⟩ : Code),
    (⟨"r@", 21, 0, 0⟩ : Code),
    (⟨":", 22, 0, 0⟩ : Code),
    (⟨";", 23, 1, 0⟩ : Code),
    (⟨"exit", 24, 0, 0⟩ : Code),
    (⟨"variable", 25, 0, 0⟩ : Code),
    (⟨"constant", 26, 0, 0⟩ : Code),
    (⟨"create", 27, 0, 0⟩ : Code),
    (⟨"does>", 28, 1, 0⟩ : Code),
    (⟨"@", 29, 0, 0⟩ : Code),
    (⟨"!", 30, 0, 0⟩ : Code),
    (⟨",", 31, 0, 0⟩ : Code),
    (⟨"here", 32, 0, 0⟩ : Code),
    (⟨"'", 33, 0, 0⟩ : Code)]

/-- The VM state right after forth_init, written out as a literal. -/
def stInit : VMSt :=
  { ss := #[], rs := #[], top := -1, dict := dictInit,
    pmem := #[10, 0, 0, 0, 255, 255, 255, 255, 255, 255, 255, 255, 255, 255, 255, 255],
    pidx := 16, baseOfs := 0, dfltOfs := 2, compile := false, ucase := false,
    vm := VMState.query, ip := 0, fin := "", pad := "", out := "", obase := 10 }

def c1x1S1 : VMSt :=
  { ss := #[-1], rs := #[], top := 0,
    dict := dictInit,
    pmem := #[10, 0, 0, 0, 255, 255, 255, 255, 255, 255, 255, 255, 255, 255, 255, 255],
    pidx := 16, baseOfs := 0, dfltOfs := 2, compile := false, ucase := false, vm := VMState.stop, ip := 0,
    fin := " 1", pad := "xyzzy", out := "xyzzy? \n", obase := 10 }

def c1x1S2 : VMSt :=
  { ss := #[-1, 0], rs := #[], top := 1,
    dict := dictInit,
    pmem := #[10, 0, 0, 0, 255, 255, 255, 255, 255, 255, 255, 255, 255, 255, 255, 255],
    pidx := 16, baseOfs := 0, dfltOfs := 2, compile := false, ucase := false, vm := VMState.query, ip := 0,
    fin := "", pad := "1", out := "xyzzy? \n", obase := 10 }

def c1x1End : VMSt :=
  { ss := #[-1, 0], rs := #[], top := 1,
    dict := dictInit,
    pmem := #[10, 0, 0, 0, 255, 255, 255, 255, 255, 255, 255, 255, 255, 255, 255, 255],
    pidx := 16, baseOfs := 0, dfltOfs := 2, compile := false, ucase := false, vm := VMState.query, ip := 0,
    fin := "", pad := "1", out := "xyzzy? \nok\n", obase := 10 }

def c2x1S1 : VMSt :=
  { ss := #[-1], rs := #[], top := 0,
    dict := dictInit,
    pmem := #[10, 0, 0, 0, 255, 255, 255, 255, 255, 255, 255, 255, 255, 255, 255, 255],
    pidx := 16, baseOfs := 0, dfltOfs := 2, compile := false, ucase := false, vm := VMState.stop, ip := 0,
    fin := "", pad := "xyzzy", out := "xyzzy? \n", obase := 10 }

def c2x1End : VMSt :=
  { ss := #[-1], rs := #[], top := 0,
    dict := dictInit,
    pmem := #[10, 0, 0, 0, 255, 255, 255, 255, 255, 255, 255, 255, 255, 255, 255, 255],
    pidx := 16, baseOfs := 0, dfltOfs := 2, compile := false, ucase := false, vm := VMState.stop, ip := 0,
    fin := "", pad := "xyzzy", out := "xyzzy? \nok\n", obase := 10 }

def c3u1S1 : VMSt :=
  { ss := #[-1], rs := #[], top := 0,
    dict := dictInit,
    pmem := #[10, 0, 0, 0, 255, 255, 255, 255, 255, 255, 255, 255, 255, 255, 255, 255],
    pidx := 16, baseOfs := 0, dfltOfs := 2, compile := false, ucase := false, vm := VMState.stop, ip := 0,
    fin := " 255 . DECIMAL 255 .", pad := "HEX", out := "HEX? \n", obase := 10 }

def c3u1S2 : VMSt :=
  { ss := #[-1, 0], rs := #[], top := 255,
    dict := dictInit,
    pmem := #[10, 0, 0, 0, 255, 255, 255, 255, 255, 255, 255, 255, 255, 255, 255, 255],
    pidx := 16, baseOfs := 0, dfltOfs := 2, compile := false, ucase := false, vm := VMState.query, ip := 0,
    fin := " . DECIMAL 255 .", pad := "255", out := "HEX? \n", obase := 10 }

def c3u1S3 : VMSt :=
  { ss := #[-1], rs := #[], top := 0,
    dict := dictInit,
    pmem := #[10, 0, 0, 0, 255, 255, 255, 255, 255, 255, 255, 255, 255, 255, 255, 255],
    pidx := 16, baseOfs := 0, dfltOfs := 2, compile := false, ucase := false, vm := VMState.query, ip := 0,
    fin := " DECIMAL 255 .", pad := ".", out := "HEX? \n255 ", obase := 10 }

def c3u1S4 : VMSt :=
  { ss := #[-1, 0], rs := #[], top := 0,
    dict := dictInit,
    pmem := #[10, 0, 0, 0, 255, 255, 255, 255, 255, 255, 255, 255, 255, 255, 255, 255],
    pidx := 16, baseOfs := 0, dfltOfs := 2, compile := false, ucase := false, vm := VMState.stop, ip := 0,
    fin := " 255 .", pad := "DECIMAL", out := "HEX? \n255 DECIMAL? \n", obase := 10 }

def c3u1S5 : VMSt :=
  { ss := #[-1, 0, 0], rs := #[], top := 255,
    dict := dictInit,
    pmem := #[10, 0, 0, 0, 255, 255, 255, 255, 255, 255, 255, 255, 255, 255, 255, 255],
    pidx := 16, baseOfs := 0, dfltOfs := 2, compile := false, ucase := false, vm := VMState.query, ip := 0,
    fin := " .", pad := "255", out := "HEX? \n255 DECIMAL? \n", obase := 10 }

def c3u1S6 : VMSt :=
  { ss := #[-1, 0], rs := #[], top := 0,
    dict := dictInit,
    pmem := #[10, 0, 0, 0, 255, 255, 255, 255, 255, 255, 255, 255, 255, 255, 255, 255],
    pidx := 16, baseOfs := 0, dfltOfs := 2, compile := false, ucase := false, vm := VMState.query, ip := 0,
    fin := "", pad := ".", out := "HEX? \n255 DECIMAL? \n255 ", obase := 10 }

def c3u1End : VMSt :=
  { ss := #[-1, 0], rs := #[], top := 0,
    dict := dictInit,
    pmem := #[10, 0, 0, 0, 255, 255, 255, 255, 255, 255, 255, 255, 255, 255, 255, 255],
    pidx := 16, baseOfs := 0, dfltOfs := 2, compile := false, ucase := false, vm := VMState.query, ip := 0,
    fin := "", pad := ".", out := "HEX? \n255 DECIMAL? \n255 ok\n", obase := 10 }

def c3l1S1 : VMSt :=
  { ss := #[], rs := #[], top := -1,
    dict := dictInit,
    pmem := #[16, 0, 0, 0, 255, 255, 255, 255, 255, 255, 255, 255, 255, 255, 255, 255],
    pidx := 16, baseOfs := 0, dfltOfs := 2, compile := false, ucase := false, vm := VMState.query, ip := 0,
    fin := " 255 . decimal 255 .", pad := "hex", out := "", obase := 16 }

def c3l1S2 : VMSt :=
  { ss := #[-1], rs := #[], top := 597,
    dict := dictInit,
    pmem := #[16, 0, 0, 0, 255, 255, 255, 255, 255, 255, 255, 255, 255, 255, 255, 255],
    pidx := 16, baseOfs := 0, dfltOfs := 2, compile := false, ucase := false, vm := VMState.query, ip := 0,
    fin := " . decimal 255 .", pad := "255", out := "", obase := 16 }

def c3l1S3 : VMSt :=
  { ss := #[], rs := #[], top := -1,
    dict := dictInit,
    pmem := #[16, 0, 0, 0, 255, 255, 255, 255, 255, 255, 255, 255, 255, 255, 255, 255],
    pidx := 16, baseOfs := 0, dfltOfs := 2, compile := false, ucase := false, vm := VMState.query, ip := 0,
    fin := " decimal 255 .", pad := ".", out := "255 ", obase := 16 }

def c3l1S4 : VMSt :=
  { ss := #[], rs := #[], top := -1,
    dict := dictInit,
    pmem := #[10, 0, 0, 0, 255, 255, 255, 255, 255, 255, 255, 255, 255, 255, 255, 255],
    pidx := 16, baseOfs := 0, dfltOfs := 2, compile := false, ucase := false, vm := VMState.query, ip := 0,
    fin := " 255 .", pad := "decimal", out := "255 ", obase := 10 }

def c3l1S5 : VMSt :=
  { ss := #[-1], rs := #[], top := 255,
    dict := dictInit,
    pmem := #[10, 0, 0, 0, 255, 255, 255, 255, 255, 255, 255, 255, 255, 255, 255, 255],
    pidx := 16, baseOfs := 0, dfltOfs := 2, compile := false, ucase := false, vm := VMState.query, ip := 0,
    fin := " .", pad := "255", out := "255 ", obase := 10 }

def c3l1S6 : VMSt :=
  { ss := #[], rs := #[], top := -1,
    dict := dictInit,
    pmem := #[10, 0, 0, 0, 255, 255, 255, 255, 255, 255, 255, 255, 255, 255, 255, 255],
    pidx := 16, baseOfs := 0, dfltOfs := 2, compile := false, ucase := false, vm := VMState.query, ip := 0,
    fin := "", pad := ".", out := "255 255 ", obase := 10 }

def c3l1End : VMSt :=
  { ss := #[], rs := #[], top := -1,
    dict := dictInit,
    pmem := #[10, 0, 0, 0, 255, 255, 255, 255, 255, 255, 255, 255, 255, 255, 255, 255],
    pidx := 16, baseOfs := 0, dfltOfs := 2, compile := false, ucase := false, vm := VMState.query, ip := 0,
    fin := "", pad := ".", out := "255 255 ok\n", obase := 10 }

def c5u1S1 : VMSt :=
  { ss := #[], rs := #[], top := -1,
    dict := dictInit |>.push (⟨"CONST", 0, 2, 22⟩ : Code),
    pmem := #[10, 0, 0, 0, 255, 255, 255, 255, 255, 255, 255, 255, 255, 255, 255, 255, 67, 79, 78, 83, 84, 0],
    pidx := 22, baseOfs := 0, dfltOfs := 2, compile := true, ucase := false, vm := VMState.query, ip := 0,
    fin := " CREATE , DOES> @ ;", pad := "CONST", out := "", obase := 10 }

def c5u1S2 : VMSt :=
  { ss := #[-1], rs := #[], top := 0,
    dict := dictInit |>.push (⟨"CONST", 0, 2, 22⟩ : Code),
    pmem := #[10, 0, 0, 0, 255, 255, 255, 255, 255, 255, 255, 255, 255, 255, 255, 255, 67, 79, 78, 83, 84, 0],
    pidx := 22, baseOfs := 0, dfltOfs := 2, compile := false, ucase := false, vm := VMState.stop, ip := 0,
    fin := " , DOES> @ ;", pad := "CREATE", out := "CREATE? \n", obase := 10 }

def c5u1S3 : VMSt :=
  { ss := #[], rs := #[], top := -1,
    dict := dictInit |>.push (⟨"CONST", 0, 2, 22⟩ : Code),
    pmem := #[10, 0, 0, 0, 255, 255, 255, 255, 255, 255, 255, 255, 255, 255, 255, 255, 67, 79, 78, 83, 84, 0, 0, 0, 0, 0],
    pidx := 26, baseOfs := 0, dfltOfs := 2, compile := false, ucase := false, vm := VMState.query, ip := 0,
    fin := " DOES> @ ;", pad := ",", out := "CREATE? \n", obase := 10 }

def c5u1S4 : VMSt :=
  { ss := #[-1], rs := #[], top := 0,
    dict := dictInit |>.push (⟨"CONST", 0, 2, 22⟩ : Code),
    pmem := #[10, 0, 0, 0, 255, 255, 255, 255, 255, 255, 255, 255, 255, 255, 255, 255, 67, 79, 78, 83, 84, 0, 0, 0, 0, 0],
    pidx := 26, baseOfs := 0, dfltOfs := 2, compile := false, ucase := false, vm := VMState.stop, ip := 0,
    fin := " @ ;", pad := "DOES>", out := "CREATE? \nDOES>? \n", obase := 10 }

def c5u1S5 : VMSt :=
  { ss := #[-1], rs := #[], top := 10,
    dict := dictInit |>.push (⟨"CONST", 0, 2, 22⟩ : Code),
    pmem := #[10, 0, 0, 0, 255, 255, 255, 255, 255, 255, 255, 255, 255, 255, 255, 255, 67, 79, 78, 83, 84, 0, 0, 0, 0, 0],
    pidx := 26, baseOfs := 0, dfltOfs := 2, compile := false, ucase := false, vm := VMState.query, ip := 0,
    fin := " ;", pad := "@", out := "CREATE? \nDOES>? \n", obase := 10 }

def c5u1S6 : VMSt :=
  { ss := #[-1], rs := #[], top := 10,
    dict := dictInit |>.push (⟨"CONST", 0, 2, 22⟩ : Code),
    pmem := #[10, 0, 0, 0, 255, 255, 255, 255, 255, 255, 255, 255, 255, 255, 255, 255, 67, 79, 78, 83, 84, 0, 0, 0, 0, 0, 0, 128],
    pidx := 28, baseOfs := 0, dfltOfs := 2, compile := false, ucase := false, vm := VMState.query, ip := 0,
    fin := "", pad := ";", out := "CREATE? \nDOES>? \n", obase := 10 }

def c5u1End : VMSt :=
  { ss := #[-1], rs := #[], top := 10,
    dict := dictInit |>.push (⟨"CONST", 0, 2, 22⟩ : Code),
    pmem := #[10, 0, 0, 0, 255, 255, 255, 255, 255, 255, 255, 255, 255, 255, 255, 255, 67, 79, 78, 83, 84, 0, 0, 0, 0, 0, 0, 128],
    pidx := 28, baseOfs := 0, dfltOfs := 2, compile := false, ucase := false, vm := VMState.query, ip := 0,
    fin := "", pad := ";", out := "CREATE? \nDOES>? \nok\n", obase := 10 }

def c5u2S1 : VMSt :=
  { ss := #[-1, 10], rs := #[], top := 99,
    dict := dictInit |>.push (⟨"CONST", 0, 2, 22⟩ : Code),
    pmem := #[10, 0, 0, 0, 255, 255, 255, 255, 255, 255, 255, 255, 255, 255, 255, 255, 67, 79, 78, 83, 84, 0, 0, 0, 0, 0, 0, 128],
    pidx := 28, baseOfs := 0, dfltOfs := 2, compile := false, ucase := false, vm := VMState.query, ip := 0,
    fin := " CONST Z", pad := "99", out := "CREATE? \nDOES>? \nok\n", obase := 10 }

def c5u2S2 : VMSt :=
  { ss := #[-1, 10], rs := #[], top := 99,
    dict := dictInit |>.push (⟨"CONST", 0, 2, 22⟩ : Code),
    pmem := #[10, 0, 0, 0, 255, 255, 255, 255, 255, 255, 255, 255, 255, 255, 255, 255, 67, 79, 78, 83, 84, 0, 0, 0, 0, 0, 0, 128],
    pidx := 28, baseOfs := 0, dfltOfs := 2, compile := false, ucase := false, vm := VMState.stop, ip := 0,
    fin := " Z", pad := "CONST", out := "CREATE? \nDOES>? \nok\n", obase := 10 }

def c5u2M1J1 : VMSt :=
  { ss := #[-1, 10], rs := #[0], top := 99,
    dict := dictInit |>.push (⟨"CONST", 0, 2, 22⟩ : Code),
    pmem := #[10, 0, 0, 0, 255, 255, 255, 255, 255, 255, 255, 255, 255, 255, 255, 255, 67, 79, 78, 83, 84, 0, 0, 0, 0, 0, 0, 128],
    pidx := 28, baseOfs := 0, dfltOfs := 2, compile := false, ucase := false, vm := VMState.nesting, ip := 24,
    fin := " Z", pad := "CONST", out := "CREATE? \nDOES>? \nok\n", obase := 10 }

def c5u2M1J2 : VMSt :=
  { ss := #[-1, 10], rs := #[0], top := 99,
    dict := dictInit |>.push (⟨"CONST", 0, 2, 22⟩ : Code),
    pmem := #[10, 0, 0, 0, 255, 255, 255, 255, 255, 255, 255, 255, 255, 255, 255, 255, 67, 79, 78, 83, 84, 0, 0, 0, 0, 0, 0, 128],
    pidx := 28, baseOfs := 0, dfltOfs := 2, compile := false, ucase := false, vm := VMState.nesting, ip := 26,
    fin := " Z", pad := "CONST", out := "CREATE? \nDOES>? \nok\n", obase := 10 }

def c5u2S3 : VMSt :=
  { ss := #[-1, 10, 99], rs := #[], top := 0,
    dict := dictInit |>.push (⟨"CONST", 0, 2, 22⟩ : Code),
    pmem := #[10, 0, 0, 0, 255, 255, 255, 255, 255, 255, 255, 255, 255, 255, 255, 255, 67, 79, 78, 83, 84, 0, 0, 0, 0, 0, 0, 128],
    pidx := 28, baseOfs := 0, dfltOfs := 2, compile := false, ucase := false, vm := VMState.stop, ip := 0,
    fin := "", pad := "Z", out := "CREATE? \nDOES>? \nok\nZ? \n", obase := 10 }

def c5u2End : VMSt :=
  { ss := #[-1, 10, 99], rs := #[], top := 0,
    dict := dictInit |>.push (⟨"CONST", 0, 2, 22⟩ : Code),
    pmem := #[10, 0, 0, 0, 255, 255, 255, 255, 255, 255, 255, 255, 255, 255, 255, 255, 67, 79, 78, 83, 84, 0, 0, 0, 0, 0, 0, 128],
    pidx := 28, baseOfs := 0, dfltOfs := 2, compile := false, ucase := false, vm := VMState.stop, ip := 0,
    fin := "", pad := "Z", out := "CREATE? \nDOES>? \nok\nZ? \nok\n", obase := 10 }

def c5u3S1 : VMSt :=
  { ss := #[-1, 10, 99, 0], rs := #[], top := 0,
    dict := dictInit |>.push (⟨"CONST", 0, 2, 22⟩ : Code),
    pmem := #[10, 0, 0, 0, 255, 255, 255, 255, 255, 255, 255, 255, 255, 255, 255, 255, 67, 79, 78, 83, 84, 0, 0, 0, 0, 0, 0, 128],
    pidx := 28, baseOfs := 0, dfltOfs := 2, compile := false, ucase := false, vm := VMState.stop, ip := 0,
    fin := "", pad := "Z", out := "CREATE? \nDOES>? \nok\nZ? \nok\nZ? \n", obase := 10 }

def c5u3End : VMSt :=
  { ss := #[-1, 10, 99, 0], rs := #[], top := 0,
    dict := dictInit |>.push (⟨"CONST", 0, 2, 22⟩ : Code),
    pmem := #[10, 0, 0, 0, 255, 255, 255, 255, 255, 255, 255, 255, 255, 255, 255, 255, 67, 79, 78, 83, 84, 0, 0, 0, 0, 0, 0, 128],
    pidx := 28, baseOfs := 0, dfltOfs := 2, compile := false, ucase := false, vm := VMState.stop, ip := 0,
    fin := "", pad := "Z", out := "CREATE? \nDOES>? \nok\nZ? \nok\nZ? \nok\n", obase := 10 }

def c5l1S1 : VMSt :=
  { ss := #[], rs := #[], top := -1,
    dict := dictInit |>.push (⟨"const", 0, 2, 22⟩ : Code),
    pmem := #[10, 0, 0, 0, 255, 255, 255, 255, 255, 255, 255, 255, 255, 255, 255, 255, 99, 111, 110, 115, 116, 0],
    pidx := 22, baseOfs := 0, dfltOfs := 2, compile := true, ucase := false, vm := VMState.query, ip := 0,
    fin := " create , does> @ ;", pad := "const", out := "", obase := 10 }

def c5l1S2 : VMSt :=
  { ss := #[], rs := #[], top := -1,
    dict := dictInit |>.push (⟨"const", 0, 2, 22⟩ : Code),
    pmem := #[10, 0, 0, 0, 255, 255, 255, 255, 255, 255, 255, 255, 255, 255, 255, 255, 99, 111, 110, 115, 116, 0, 27, 0],
    pidx := 24, baseOfs := 0, dfltOfs := 2, compile := true, ucase := false, vm := VMState.query, ip := 0,
    fin := " , does> @ ;", pad := "create", out := "", obase := 10 }

def c5l1S3 : VMSt :=
  { ss := #[], rs := #[], top := -1,
    dict := dictInit |>.push (⟨"const", 0, 2, 22⟩ : Code),
    pmem := #[10, 0, 0, 0, 255, 255, 255, 255, 255, 255, 255, 255, 255, 255, 255, 255, 99, 111, 110, 115, 116, 0, 27, 0, 31, 0],
    pidx := 26, baseOfs := 0, dfltOfs := 2, compile := true, ucase := false, vm := VMState.query, ip := 0,
    fin := " does> @ ;", pad := ",", out := "", obase := 10 }

def c5l1S4 : VMSt :=
  { ss := #[], rs := #[], top := -1,
    dict := dictInit |>.push (⟨"const", 0, 2, 22⟩ : Code),
    pmem := #[10, 0, 0, 0, 255, 255, 255, 255, 255, 255, 255, 255, 255, 255, 255, 255, 99, 111, 110, 115, 116, 0, 27, 0, 31, 0, 11, 128],
    pidx := 28, baseOfs := 0, dfltOfs := 2, compile := true, ucase := false, vm := VMState.query, ip := 0,
    fin := " @ ;", pad := "does>", out := "", obase := 10 }

def c5l1S5 : VMSt :=
  { ss := #[], rs := #[], top := -1,
    dict := dictInit |>.push (⟨"const", 0, 2, 22⟩ : Code),
    pmem := #[10, 0, 0, 0, 255, 255, 255, 255, 255, 255, 255, 255, 255, 255, 255, 255, 99, 111, 110, 115, 116, 0, 27, 0, 31, 0, 11, 128, 29, 0],
    pidx := 30, baseOfs := 0, dfltOfs := 2, compile := true, ucase := false, vm := VMState.query, ip := 0,
    fin := " ;", pad := "@", out := "", obase := 10 }

def c5l1S6 : VMSt :=
  { ss := #[], rs := #[], top := -1,
    dict := dictInit |>.push (⟨"const", 0, 2, 22⟩ : Code),
    pmem := #[10, 0, 0, 0, 255, 255, 255, 255, 255, 255, 255, 255, 255, 255, 255, 255, 99, 111, 110, 115, 116, 0, 27, 0, 31, 0, 11, 128, 29, 0, 0, 128],
    pidx := 32, baseOfs := 0, dfltOfs := 2, compile := false, ucase := false, vm := VMState.query, ip := 0,
    fin := "", pad := ";", out := "", obase := 10 }

def c5l1End : VMSt :=
  { ss := #[], rs := #[], top := -1,
    dict := dictInit |>.push (⟨"const", 0, 2, 22⟩ : Code),
    pmem := #[10, 0, 0, 0, 255, 255, 255, 255, 255, 255, 255, 255, 255, 255, 255, 255, 99, 111, 110, 115, 116, 0, 27, 0, 31, 0, 11, 128, 29, 0, 0, 128],
    pidx := 32, baseOfs := 0, dfltOfs := 2, compile := false, ucase := false, vm := VMState.query, ip := 0,
    fin := "", pad := ";", out := "ok\n", obase := 10 }

def c5l2S1 : VMSt :=
  { ss := #[-1], rs := #[], top := 99,
    dict := dictInit |>.push (⟨"const", 0, 2, 22⟩ : Code),
    pmem := #[10, 0, 0, 0, 255, 255, 255, 255, 255, 255, 255, 255, 255, 255, 255, 255, 99, 111, 110, 115, 116, 0, 27, 0, 31, 0, 11, 128, 29, 0, 0, 128],
    pidx := 32, baseOfs := 0, dfltOfs := 2, compile := false, ucase := false, vm := VMState.query, ip := 0,
    fin := " const z", pad := "99", out := "ok\n", obase := 10 }

def c5l2S2 : VMSt :=
  { ss := #[], rs := #[], top := -1,
    dict := dictInit |>.push (⟨"const", 0, 2, 22⟩ : Code) |>.push (⟨"z", 0, 2, 34⟩ : Code),
    pmem := #[10, 0, 0, 0, 255, 255, 255, 255, 255, 255, 255, 255, 255, 255, 255, 255, 99, 111, 110, 115, 116, 0, 27, 0, 31, 0, 11, 128, 29, 0, 0, 128, 122, 0, 10, 128, 28, 0, 0, 0, 99, 0, 0, 0],
    pidx := 44, baseOfs := 0, dfltOfs := 2, compile := false, ucase := false, vm := VMState.stop, ip := 0,
    fin := "", pad := "z", out := "ok\n", obase := 10 }

def c5l2M1J1 : VMSt :=
  { ss := #[-1], rs := #[0], top := 99,
    dict := dictInit |>.push (⟨"const", 0, 2, 22⟩ : Code) |>.push (⟨"z", 0, 2, 34⟩ : Code),
    pmem := #[10, 0, 0, 0, 255, 255, 255, 255, 255, 255, 255, 255, 255, 255, 255, 255, 99, 111, 110, 115, 116, 0, 27, 0, 31, 0, 11, 128, 29, 0, 0, 128, 122, 0, 10, 128, 0, 0],
    pidx := 40, baseOfs := 0, dfltOfs := 2, compile := false, ucase := false, vm := VMState.nesting, ip := 24,
    fin := "", pad := "z", out := "ok\n", obase := 10 }

def c5l2M1J2 : VMSt :=
  { ss := #[], rs := #[0], top := -1,
    dict := dictInit |>.push (⟨"const", 0, 2, 22⟩ : Code) |>.push (⟨"z", 0, 2, 34⟩ : Code),
    pmem := #[10, 0, 0, 0, 255, 255, 255, 255, 255, 255, 255, 255, 255, 255, 255, 255, 99, 111, 110, 115, 116, 0, 27, 0, 31, 0, 11, 128, 29, 0, 0, 128, 122, 0, 10, 128, 0, 0, 0, 0, 99, 0, 0, 0],
    pidx := 44, baseOfs := 0, dfltOfs := 2, compile := false, ucase := false, vm := VMState.nesting, ip := 26,
    fin := "", pad := "z", out := "ok\n", obase := 10 }

def c5l2End : VMSt :=
  { ss := #[], rs := #[], top := -1,
    dict := dictInit |>.push (⟨"const", 0, 2, 22⟩ : Code) |>.push (⟨"z", 0, 2, 34⟩ : Code),
    pmem := #[10, 0, 0, 0, 255, 255, 255, 255, 255, 255, 255, 255, 255, 255, 255, 255, 99, 111, 110, 115, 116, 0, 27, 0, 31, 0, 11, 128, 29, 0, 0, 128, 122, 0, 10, 128, 28, 0, 0, 0, 99, 0, 0, 0],
    pidx := 44, baseOfs := 0, dfltOfs := 2, compile := false, ucase := false, vm := VMState.stop, ip := 0,
    fin := "", pad := "z", out := "ok\nok\n", obase := 10 }

def c5l3S1 : VMSt :=
  { ss := #[-1], rs := #[], top := 99,
    dict := dictInit |>.push (⟨"const", 0, 2, 22⟩ : Code) |>.push (⟨"z", 0, 2, 34⟩ : Code),
    pmem := #[10, 0, 0, 0, 255, 255, 255, 255, 255, 255, 255, 255, 255, 255, 255, 255, 99, 111, 110, 115, 116, 0, 27, 0, 31, 0, 11, 128, 29, 0, 0, 128, 122, 0, 10, 128, 28, 0, 0, 0, 99, 0, 0, 0],
    pidx := 44, baseOfs := 0, dfltOfs := 2, compile := false, ucase := false, vm := VMState.stop, ip := 0,
    fin := "", pad := "z", out := "ok\nok\n", obase := 10 }

def c5l3M0J1 : VMSt :=
  { ss := #[-1], rs := #[0], top := 40,
    dict := dictInit |>.push (⟨"const", 0, 2, 22⟩ : Code) |>.push (⟨"z", 0, 2, 34⟩ : Code),
    pmem := #[10, 0, 0, 0, 255, 255, 255, 255, 255, 255, 255, 255, 255, 255, 255, 255, 99, 111, 110, 115, 116, 0, 27, 0, 31, 0, 11, 128, 29, 0, 0, 128, 122, 0, 10, 128, 28, 0, 0, 0, 99, 0, 0, 0],
    pidx := 44, baseOfs := 0, dfltOfs := 2, compile := false, ucase := false, vm := VMState.nesting, ip := 28,
    fin := "", pad := "z", out := "ok\nok\n", obase := 10 }

def c5l3M0J2 : VMSt :=
  { ss := #[-1], rs := #[0], top := 99,
    dict := dictInit |>.push (⟨"const", 0, 2, 22⟩ : Code) |>.push (⟨"z", 0, 2, 34⟩ : Code),
    pmem := #[10, 0, 0, 0, 255, 255, 255, 255, 255, 255, 255, 255, 255, 255, 255, 255, 99, 111, 110, 115, 116, 0, 27, 0, 31, 0, 11, 128, 29, 0, 0, 128, 122, 0, 10, 128, 28, 0, 0, 0, 99, 0, 0, 0],
    pidx := 44, baseOfs := 0, dfltOfs := 2, compile := false, ucase := false, vm := VMState.nesting, ip := 30,
    fin := "", pad := "z", out := "ok\nok\n", obase := 10 }

def c5l3End : VMSt :=
  { ss := #[-1], rs := #[], top := 99,
    dict := dictInit |>.push (⟨"const", 0, 2, 22⟩ : Code) |>.push (⟨"z", 0, 2, 34⟩ : Code),
    pmem := #[10, 0, 0, 0, 255, 255, 255, 255, 255, 255, 255, 255, 255, 255, 255, 255, 99, 111, 110, 115, 116, 0, 27, 0, 31, 0, 11, 128, 29, 0, 0, 128, 122, 0, 10, 128, 28, 0, 0, 0, 99, 0, 0, 0],
    pidx := 44, baseOfs := 0, dfltOfs := 2, compile := false, ucase := false, vm := VMState.stop, ip := 0,
    fin := "", pad := "z", out := "ok\nok\nok\n", obase := 10 }

def c6u1S1 : VMSt :=
  { ss := #[], rs := #[], top := -1,
    dict := dictInit |>.push (⟨"T", 0, 2, 18⟩ : Code),
    pmem := #[10, 0, 0, 0, 255, 255, 255, 255, 255, 255, 255, 255, 255, 255, 255, 255, 84, 0],
    pidx := 18, baseOfs := 0, dfltOfs := 2, compile := true, ucase := false, vm := VMState.query, ip := 0,
    fin := " 5 0 DO I LOOP ;", pad := "T", out := "", obase := 10 }

def c6u1S2 : VMSt :=
  { ss := #[], rs := #[], top := -1,
    dict := dictInit |>.push (⟨"T", 0, 2, 18⟩ : Code),
    pmem := #[10, 0, 0, 0, 255, 255, 255, 255, 255, 255, 255, 255, 255, 255, 255, 255, 84, 0, 4, 128, 5, 0, 0, 0],
    pidx := 24, baseOfs := 0, dfltOfs := 2, compile := true, ucase := false, vm := VMState.query, ip := 0,
    fin := " 0 DO I LOOP ;", pad := "5", out := "", obase := 10 }

def c6u1S3 : VMSt :=
  { ss := #[], rs := #[], top := -1,
    dict := dictInit |>.push (⟨"T", 0, 2, 18⟩ : Code),
    pmem := #[10, 0, 0, 0, 255, 255, 255, 255, 255, 255, 255, 255, 255, 255, 255, 255, 84, 0, 4, 128, 5, 0, 0, 0, 4, 128, 0, 0, 0, 0],
    pidx := 30, baseOfs := 0, dfltOfs := 2, compile := true, ucase := false, vm := VMState.query, ip := 0,
    fin := " DO I LOOP ;", pad := "0", out := "", obase := 10 }

def c6u1S4 : VMSt :=
  { ss := #[-1], rs := #[], top := 0,
    dict := dictInit |>.push (⟨"T", 0, 2, 18⟩ : Code),
    pmem := #[10, 0, 0, 0, 255, 255, 255, 255, 255, 255, 255, 255, 255, 255, 255, 255, 84, 0, 4, 128, 5, 0, 0, 0, 4, 128, 0, 0, 0, 0],
    pidx := 30, baseOfs := 0, dfltOfs := 2, compile := false, ucase := false, vm := VMState.stop, ip := 0,
    fin := " I LOOP ;", pad := "DO", out := "DO? \n", obase := 10 }

def c6u1S5 : VMSt :=
  { ss := #[-1, 0], rs := #[], top := 0,
    dict := dictInit |>.push (⟨"T", 0, 2, 18⟩ : Code),
    pmem := #[10, 0, 0, 0, 255, 255, 255, 255, 255, 255, 255, 255, 255, 255, 255, 255, 84, 0, 4, 128, 5, 0, 0, 0, 4, 128, 0, 0, 0, 0],
    pidx := 30, baseOfs := 0, dfltOfs := 2, compile := false, ucase := false, vm := VMState.stop, ip := 0,
    fin := " LOOP ;", pad := "I", out := "DO? \nI? \n", obase := 10 }

def c6u1S6 : VMSt :=
  { ss := #[-1, 0, 0], rs := #[], top := 0,
    dict := dictInit |>.push (⟨"T", 0, 2, 18⟩ : Code),
    pmem := #[10, 0, 0, 0, 255, 255, 255, 255, 255, 255, 255, 255, 255, 255, 255, 255, 84, 0, 4, 128, 5, 0, 0, 0, 4, 128, 0, 0, 0, 0],
    pidx := 30, baseOfs := 0, dfltOfs := 2, compile := false, ucase := false, vm := VMState.stop, ip := 0,
    fin := " ;", pad := "LOOP", out := "DO? \nI? \nLOOP? \n", obase := 10 }

def c6u1S7 : VMSt :=
  { ss := #[-1, 0, 0], rs := #[], top := 0,
    dict := dictInit |>.push (⟨"T", 0, 2, 18⟩ : Code),
    pmem := #[10, 0, 0, 0, 255, 255, 255, 255, 255, 255, 255, 255, 255, 255, 255, 255, 84, 0, 4, 128, 5, 0, 0, 0, 4, 128, 0, 0, 0, 0, 0, 128],
    pidx := 32, baseOfs := 0, dfltOfs := 2, compile := false, ucase := false, vm := VMState.query, ip := 0,
    fin := "", pad := ";", out := "DO? \nI? \nLOOP? \n", obase := 10 }

def c6u1End : VMSt :=
  { ss := #[-1, 0, 0], rs := #[], top := 0,
    dict := dictInit |>.push (⟨"T", 0, 2, 18⟩ : Code),
    pmem := #[10, 0, 0, 0, 255, 255, 255, 255, 255, 255, 255, 255, 255, 255, 255, 255, 84, 0, 4, 128, 5, 0, 0, 0, 4, 128, 0, 0, 0, 0, 0, 128],
    pidx := 32, baseOfs := 0, dfltOfs := 2, compile := false, ucase := false, vm := VMState.query, ip := 0,
    fin := "", pad := ";", out := "DO? \nI? \nLOOP? \nok\n", obase := 10 }

def c6u2S1 : VMSt :=
  { ss := #[-1, 0, 0, 0, 5], rs := #[], top := 0,
    dict := dictInit |>.push (⟨"T", 0, 2, 18⟩ : Code),
    pmem := #[10, 0, 0, 0, 255, 255, 255, 255, 255, 255, 255, 255, 255, 255, 255, 255, 84, 0, 4, 128, 5, 0, 0, 0, 4, 128, 0, 0, 0, 0, 0, 128],
    pidx := 32, baseOfs := 0, dfltOfs := 2, compile := false, ucase := false, vm := VMState.stop, ip := 0,
    fin := "", pad := "T", out := "DO? \nI? \nLOOP? \nok\n", obase := 10 }

def c6u2M0J1 : VMSt :=
  { ss := #[-1, 0, 0, 0], rs := #[0], top := 5,
    dict := dictInit |>.push (⟨"T", 0, 2, 18⟩ : Code),
    pmem := #[10, 0, 0, 0, 255, 255, 255, 255, 255, 255, 255, 255, 255, 255, 255, 255, 84, 0, 4, 128, 5, 0, 0, 0, 4, 128, 0, 0, 0, 0, 0, 128],
    pidx := 32, baseOfs := 0, dfltOfs := 2, compile := false, ucase := false, vm := VMState.nesting, ip := 24,
    fin := "", pad := "T", out := "DO? \nI? \nLOOP? \nok\n", obase := 10 }

def c6u2M0J2 : VMSt :=
  { ss := #[-1, 0, 0, 0, 5], rs := #[0], top := 0,
    dict := dictInit |>.push (⟨"T", 0, 2, 18⟩ : Code),
    pmem := #[10, 0, 0, 0, 255, 255, 255, 255, 255, 255, 255, 255, 255, 255, 255, 255, 84, 0, 4, 128, 5, 0, 0, 0, 4, 128, 0, 0, 0, 0, 0, 128],
    pidx := 32, baseOfs := 0, dfltOfs := 2, compile := false, ucase := false, vm := VMState.nesting, ip := 30,
    fin := "", pad := "T", out := "DO? \nI? \nLOOP? \nok\n", obase := 10 }

def c6u2End : VMSt :=
  { ss := #[-1, 0, 0, 0, 5], rs := #[], top := 0,
    dict := dictInit |>.push (⟨"T", 0, 2, 18⟩ : Code),
    pmem := #[10, 0, 0, 0, 255, 255, 255, 255, 255, 255, 255, 255, 255, 255, 255, 255, 84, 0, 4, 128, 5, 0, 0, 0, 4, 128, 0, 0, 0, 0, 0, 128],
    pidx := 32, baseOfs := 0, dfltOfs := 2, compile := false, ucase := false, vm := VMState.stop, ip := 0,
    fin := "", pad := "T", out := "DO? \nI? \nLOOP? \nok\nok\n", obase := 10 }

def c6l1S1 : VMSt :=
  { ss := #[], rs := #[], top := -1,
    dict := dictInit |>.push (⟨"t", 0, 2, 18⟩ : Code),
    pmem := #[10, 0, 0, 0, 255, 255, 255, 255, 255, 255, 255, 255, 255, 255, 255, 255, 116, 0],
    pidx := 18, baseOfs := 0, dfltOfs := 2, compile := true, ucase := false, vm := VMState.query, ip := 0,
    fin := " 5 0 do i loop ;", pad := "t", out := "", obase := 10 }

def c6l1S2 : VMSt :=
  { ss := #[], rs := #[], top := -1,
    dict := dictInit |>.push (⟨"t", 0, 2, 18⟩ : Code),
    pmem := #[10, 0, 0, 0, 255, 255, 255, 255, 255, 255, 255, 255, 255, 255, 255, 255, 116, 0, 4, 128, 5, 0, 0, 0],
    pidx := 24, baseOfs := 0, dfltOfs := 2, compile := true, ucase := false, vm := VMState.query, ip := 0,
    fin := " 0 do i loop ;", pad := "5", out := "", obase := 10 }

def c6l1S3 : VMSt :=
  { ss := #[], rs := #[], top := -1,
    dict := dictInit |>.push (⟨"t", 0, 2, 18⟩ : Code),
    pmem := #[10, 0, 0, 0, 255, 255, 255, 255, 255, 255, 255, 255, 255, 255, 255, 255, 116, 0, 4, 128, 5, 0, 0, 0, 4, 128, 0, 0, 0, 0],
    pidx := 30, baseOfs := 0, dfltOfs := 2, compile := true, ucase := false, vm := VMState.query, ip := 0,
    fin := " do i loop ;", pad := "0", out := "", obase := 10 }

def c6l1S4 : VMSt :=
  { ss := #[-1], rs := #[], top := 32,
    dict := dictInit |>.push (⟨"t", 0, 2, 18⟩ : Code),
    pmem := #[10, 0, 0, 0, 255, 255, 255, 255, 255, 255, 255, 255, 255, 255, 255, 255, 116, 0, 4, 128, 5, 0, 0, 0, 4, 128, 0, 0, 0, 0, 13, 128],
    pidx := 32, baseOfs := 0, dfltOfs := 2, compile := true, ucase := false, vm := VMState.query, ip := 0,
    fin := " i loop ;", pad := "do", out := "", obase := 10 }

def c6l1S5 : VMSt :=
  { ss := #[-1], rs := #[], top := 32,
    dict := dictInit |>.push (⟨"t", 0, 2, 18⟩ : Code),
    pmem := #[10, 0, 0, 0, 255, 255, 255, 255, 255, 255, 255, 255, 255, 255, 255, 255, 116, 0, 4, 128, 5, 0, 0, 0, 4, 128, 0, 0, 0, 0, 13, 128, 17, 0],
    pidx := 34, baseOfs := 0, dfltOfs := 2, compile := true, ucase := false, vm := VMState.query, ip := 0,
    fin := " loop ;", pad := "i", out := "", obase := 10 }

def c6l1S6 : VMSt :=
  { ss := #[], rs := #[], top := -1,
    dict := dictInit |>.push (⟨"t", 0, 2, 18⟩ : Code),
    pmem := #[10, 0, 0, 0, 255, 255, 255, 255, 255, 255, 255, 255, 255, 255, 255, 255, 116, 0, 4, 128, 5, 0, 0, 0, 4, 128, 0, 0, 0, 0, 13, 128, 17, 0, 3, 128, 32, 0],
    pidx := 38, baseOfs := 0, dfltOfs := 2, compile := true, ucase := false, vm := VMState.query, ip := 0,
    fin := " ;", pad := "loop", out := "", obase := 10 }

def c6l1S7 : VMSt :=
  { ss := #[], rs := #[], top := -1,
    dict := dictInit |>.push (⟨"t", 0, 2, 18⟩ : Code),
    pmem := #[10, 0, 0, 0, 255, 255, 255, 255, 255, 255, 255, 255, 255, 255, 255, 255, 116, 0, 4, 128, 5, 0, 0, 0, 4, 128, 0, 0, 0, 0, 13, 128, 17, 0, 3, 128, 32, 0, 0, 128],
    pidx := 40, baseOfs := 0, dfltOfs := 2, compile := false, ucase := false, vm := VMState.query, ip := 0,
    fin := "", pad := ";", out := "", obase := 10 }

def c6l1End : VMSt :=
  { ss := #[], rs := #[], top := -1,
    dict := dictInit |>.push (⟨"t", 0, 2, 18⟩ : Code),
    pmem := #[10, 0, 0, 0, 255, 255, 255, 255, 255, 255, 255, 255, 255, 255, 255, 255, 116, 0, 4, 128, 5, 0, 0, 0, 4, 128, 0, 0, 0, 0, 13, 128, 17, 0, 3, 128, 32, 0, 0, 128],
    pidx := 40, baseOfs := 0, dfltOfs := 2, compile := false, ucase := false, vm := VMState.query, ip := 0,
    fin := "", pad := ";", out := "ok\n", obase := 10 }

def c6l2S1 : VMSt :=
  { ss := #[-1, 0, 1, 2, 3], rs := #[], top := 4,
    dict := dictInit |>.push (⟨"t", 0, 2, 18⟩ : Code),
    pmem := #[10, 0, 0, 0, 255, 255, 255, 255, 255, 255, 255, 255, 255, 255, 255, 255, 116, 0, 4, 128, 5, 0, 0, 0, 4, 128, 0, 0, 0, 0, 13, 128, 17, 0, 3, 128, 32, 0, 0, 128],
    pidx := 40, baseOfs := 0, dfltOfs := 2, compile := false, ucase := false, vm := VMState.stop, ip := 0,
    fin := "", pad := "t", out := "ok\n", obase := 10 }

def c6l2M0J1 : VMSt :=
  { ss := #[-1], rs := #[0], top := 5,
    dict := dictInit |>.push (⟨"t", 0, 2, 18⟩ : Code),
    pmem := #[10, 0, 0, 0, 255, 255, 255, 255, 255, 255, 255, 255, 255, 255, 255, 255, 116, 0, 4, 128, 5, 0, 0, 0, 4, 128, 0, 0, 0, 0, 13, 128, 17, 0, 3, 128, 32, 0, 0, 128],
    pidx := 40, baseOfs := 0, dfltOfs := 2, compile := false, ucase := false, vm := VMState.nesting, ip := 24,
    fin := "", pad := "t", out := "ok\n", obase := 10 }

def c6l2M0J2 : VMSt :=
  { ss := #[-1, 5], rs := #[0], top := 0,
    dict := dictInit |>.push (⟨"t", 0, 2, 18⟩ : Code),
    pmem := #[10, 0, 0, 0, 255, 255, 255, 255, 255, 255, 255, 255, 255, 255, 255, 255, 116, 0, 4, 128, 5, 0, 0, 0, 4, 128, 0, 0, 0, 0, 13, 128, 17, 0, 3, 128, 32, 0, 0, 128],
    pidx := 40, baseOfs := 0, dfltOfs := 2, compile := false, ucase := false, vm := VMState.nesting, ip := 30,
    fin := "", pad := "t", out := "ok\n", obase := 10 }

def c6l2M0J3 : VMSt :=
  { ss := #[], rs := #[0, 5, 0], top := -1,
    dict := dictInit |>.push (⟨"t", 0, 2, 18⟩ : Code),
    pmem := #[10, 0, 0, 0, 255, 255, 255, 255, 255, 255, 255, 255, 255, 255, 255, 255, 116, 0, 4, 128, 5, 0, 0, 0, 4, 128, 0, 0, 0, 0, 13, 128, 17, 0, 3, 128, 32, 0, 0, 128],
    pidx := 40, baseOfs := 0, dfltOfs := 2, compile := false, ucase := false, vm := VMState.nesting, ip := 32,
    fin := "", pad := "t", out := "ok\n", obase := 10 }

def c6l2M0J4 : VMSt :=
  { ss := #[-1], rs := #[0, 5, 0], top := 0,
    dict := dictInit |>.push (⟨"t", 0, 2, 18⟩ : Code),
    pmem := #[10, 0, 0, 0, 255, 255, 255, 255, 255, 255, 255, 255, 255, 255, 255, 255, 116, 0, 4, 128, 5, 0, 0, 0, 4, 128, 0, 0, 0, 0, 13, 128, 17, 0, 3, 128, 32, 0, 0, 128],
    pidx := 40, baseOfs := 0, dfltOfs := 2, compile := false, ucase := false, vm := VMState.nesting, ip := 34,
    fin := "", pad := "t", out := "ok\n", obase := 10 }

def c6l2M0J5 : VMSt :=
  { ss := #[-1], rs := #[0, 5, 1], top := 0,
    dict := dictInit |>.push (⟨"t", 0, 2, 18⟩ : Code),
    pmem := #[10, 0, 0, 0, 255, 255, 255, 255, 255, 255, 255, 255, 255, 255, 255, 255, 116, 0, 4, 128, 5, 0, 0, 0, 4, 128, 0, 0, 0, 0, 13, 128, 17, 0, 3, 128, 32, 0, 0, 128],
    pidx := 40, baseOfs := 0, dfltOfs := 2, compile := false, ucase := false, vm := VMState.nesting, ip := 32,
    fin := "", pad := "t", out := "ok\n", obase := 10 }

def c6l2M0J6 : VMSt :=
  { ss := #[-1, 0], rs := #[0, 5, 1], top := 1,
    dict := dictInit |>.push (⟨"t", 0, 2, 18⟩ : Code),
    pmem := #[10, 0, 0, 0, 255, 255, 255, 255, 255, 255, 255, 255, 255, 255, 255, 255, 116, 0, 4, 128, 5, 0, 0, 0, 4, 128, 0, 0, 0, 0, 13, 128, 17, 0, 3, 128, 32, 0, 0, 128],
    pidx := 40, baseOfs := 0, dfltOfs := 2, compile := false, ucase := false, vm := VMState.nesting, ip := 34,
    fin := "", pad := "t", out := "ok\n", obase := 10 }

def c6l2M0J7 : VMSt :=
  { ss := #[-1, 0], rs := #[0, 5, 2], top := 1,
    dict := dictInit |>.push (⟨"t", 0, 2, 18⟩ : Code),
    pmem := #[10, 0, 0, 0, 255, 255, 255, 255, 255, 255, 255, 255, 255, 255, 255, 255, 116, 0, 4, 128, 5, 0, 0, 0, 4, 128, 0, 0, 0, 0, 13, 128, 17, 0, 3, 128, 32, 0, 0, 128],
    pidx := 40, baseOfs := 0, dfltOfs := 2, compile := false, ucase := false, vm := VMState.nesting, ip := 32,
    fin := "", pad := "t", out := "ok\n", obase := 10 }

def c6l2M0J8 : VMSt :=
  { ss := #[-1, 0, 1], rs := #[0, 5, 2], top := 2,
    dict := dictInit |>.push (⟨"t", 0, 2, 18⟩ : Code),
    pmem := #[10, 0, 0, 0, 255, 255, 255, 255, 255, 255, 255, 255, 255, 255, 255, 255, 116, 0, 4, 128, 5, 0, 0, 0, 4, 128, 0, 0, 0, 0, 13, 128, 17, 0, 3, 128, 32, 0, 0, 128],
    pidx := 40, baseOfs := 0, dfltOfs := 2, compile := false, ucase := false, vm := VMState.nesting, ip := 34,
    fin := "", pad := "t", out := "ok\n", obase := 10 }

def c6l2M0J9 : VMSt :=
  { ss := #[-1, 0, 1], rs := #[0, 5, 3], top := 2,
    dict := dictInit |>.push (⟨"t", 0, 2, 18⟩ : Code),
    pmem := #[10, 0, 0, 0, 255, 255, 255, 255, 255, 255, 255, 255, 255, 255, 255, 255, 116, 0, 4, 128, 5, 0, 0, 0, 4, 128, 0, 0, 0, 0, 13, 128, 17, 0, 3, 128, 32, 0, 0, 128],
    pidx := 40, baseOfs := 0, dfltOfs := 2, compile := false, ucase := false, vm := VMState.nesting, ip := 32,
    fin := "", pad := "t", out := "ok\n", obase := 10 }

def c6l2M0J10 : VMSt :=
  { ss := #[-1, 0, 1, 2], rs := #[0, 5, 3], top := 3,
    dict := dictInit |>.push (⟨"t", 0, 2, 18⟩ : Code),
    pmem := #[10, 0, 0, 0, 255, 255, 255, 255, 255, 255, 255, 255, 255, 255, 255, 255, 116, 0, 4, 128, 5, 0, 0, 0, 4, 128, 0, 0, 0, 0, 13, 128, 17, 0, 3, 128, 32, 0, 0, 128],
    pidx := 40, baseOfs := 0, dfltOfs := 2, compile := false, ucase := false, vm := VMState.nesting, ip := 34,
    fin := "", pad := "t", out := "ok\n", obase := 10 }

def c6l2M0J11 : VMSt :=
  { ss := #[-1, 0, 1, 2], rs := #[0, 5, 4], top := 3,
    dict := dictInit |>.push (⟨"t", 0, 2, 18⟩ : Code),
    pmem := #[10, 0, 0, 0, 255, 255, 255, 255, 255, 255, 255, 255, 255, 255, 255, 255, 116, 0, 4, 128, 5, 0, 0, 0, 4, 128, 0, 0, 0, 0, 13, 128, 17, 0, 3, 128, 32, 0, 0, 128],
    pidx := 40, baseOfs := 0, dfltOfs := 2, compile := false, ucase := false, vm := VMState.nesting, ip := 32,
    fin := "", pad := "t", out := "ok\n", obase := 10 }

def c6l2M0J12 : VMSt :=
  { ss := #[-1, 0, 1, 2, 3], rs := #[0, 5, 4], top := 4,
    dict := dictInit |>.push (⟨"t", 0, 2, 18⟩ : Code),
    pmem := #[10, 0, 0, 0, 255, 255, 255, 255, 255, 255, 255, 255, 255, 255, 255, 255, 116, 0, 4, 128, 5, 0, 0, 0, 4, 128, 0, 0, 0, 0, 13, 128, 17, 0, 3, 128, 32, 0, 0, 128],
    pidx := 40, baseOfs := 0, dfltOfs := 2, compile := false, ucase := false, vm := VMState.nesting, ip := 34,
    fin := "", pad := "t", out := "ok\n", obase := 10 }

def c6l2M0J13 : VMSt :=
  { ss := #[-1, 0, 1, 2, 3], rs := #[0], top := 4,
    dict := dictInit |>.push (⟨"t", 0, 2, 18⟩ : Code),
    pmem := #[10, 0, 0, 0, 255, 255, 255, 255, 255, 255, 255, 255, 255, 255, 255, 255, 116, 0, 4, 128, 5, 0, 0, 0, 4, 128, 0, 0, 0, 0, 13, 128, 17, 0, 3, 128, 32, 0, 0, 128],
    pidx := 40, baseOfs := 0, dfltOfs := 2, compile := false, ucase := false, vm := VMState.nesting, ip := 38,
    fin := "", pad := "t", out := "ok\n", obase := 10 }

def c6l2End : VMSt :=
  { ss := #[-1, 0, 1, 2, 3], rs := #[], top := 4,
    dict := dictInit |>.push (⟨"t", 0, 2, 18⟩ : Code),
    pmem := #[10, 0, 0, 0, 255, 255, 255, 255, 255, 255, 255, 255, 255, 255, 255, 255, 116, 0, 4, 128, 5, 0, 0, 0, 4, 128, 0, 0, 0, 0, 13, 128, 17, 0, 3, 128, 32, 0, 0, 128],
    pidx := 40, baseOfs := 0, dfltOfs := 2, compile := false, ucase := false, vm := VMState.stop, ip := 0,
    fin := "", pad := "t", out := "ok\nok\n", obase := 10 }

set_option maxRecDepth 100000
set_option maxHeartbeats 8000000

lemma vmLoop_cons (fuel f f' : Nat) (hf : f = f' + 1) (st st1 : VMSt)
    (tok rest : String)
    (he : extractToken st.fin = some (tok, rest))
    (hc : forth_core fuel tok { st with pad := tok, fin := rest } = st1)
    (hh : ¬ st1.vm = VMState.hold) :
    vmLoop fuel f st = vmLoop fuel f' st1 := by
  subst hf
  simp only [vmLoop, he]
  rw [hc]
  simp [hh]

lemma vmLoop_nil (fuel f f' : Nat) (hf : f = f' + 1) (st : VMSt)
    (he : extractToken st.fin = none) :
    vmLoop fuel f st = st := by
  subst hf
  simp [vmLoop, he]

lemma forth_vm_eval (fuel : Nat) (line : String) (st stL : VMSt)
    (h0 : (st.vm = VMState.hold || st.vm = VMState.iow) = false)
    (hL : vmLoop fuel fuel { st with fin := line } = stL)
    (h2 : (stL.vm = VMState.hold || stL.vm = VMState.iow) = false)
    (h3 : stL.compile = false) :
    forth_vm fuel line st = (false, ss_dump stL) := by
  simp only [forth_vm, h0, Bool.false_eq_true, if_false, hL, h2, h3]
  simp

lemma forth_line_of_vm (f f' : Nat) (hf : f = f' + 1) (line : String)
    (st r : VMSt) (h : forth_vm 32 line st = (false, r)) :
    forth_line f line st = r := by
  subst hf
  simp [forth_line, h]

lemma init_eq : forth_init st0 = stInit := by decide

lemma nestLoop_cons (f f' : Nat) (hf : f = f' + 1) (st st1 : VMSt)
    (h1 : st.vm = VMState.nesting) (h2 : st.ip ≠ 0)
    (hs : nestStep st = st1) :
    nestLoop f st = nestLoop f' st1 := by
  subst hf
  simp only [nestLoop]
  rw [if_pos (And.intro h1 h2), hs]

lemma nestLoop_stop (f f' : Nat) (hf : f = f' + 1) (st : VMSt)
    (h : ¬(st.vm = VMState.nesting ∧ st.ip ≠ 0)) :
    nestLoop f st = st := by
  subst hf
  simp only [nestLoop]
  rw [if_neg h]

lemma CALL_colon (fuel w : Nat) (st st1 : VMSt)
    (hu : IS_UDF st w = true)
    (hn : nestLoop fuel
      { { st with rs := st.rs.push 0, ip := (st.dict.getD w defaultCode).pfa }
        with vm := VMState.nesting } = st1) :
    CALL fuel w st = st1 := by
  simp only [CALL, nest]
  rw [if_pos hu]
  exact hn

lemma forth_core_word (fuel : Nat) (idiom : String) (st st1 : VMSt) (w : Nat)
    (hw : find { st with vm := VMState.query } idiom = w)
    (hw0 : w ≠ 0)
    (hcomp : (({ st with vm := VMState.query } : VMSt).compile
      && !IS_IMM { st with vm := VMState.query } w) = false)
    (hc : CALL fuel w { st with vm := VMState.query } = st1) :
    forth_core fuel idiom st = st1 := by
  simp only [forth_core, hw]
  rw [if_pos hw0, hcomp]
  simp only [Bool.false_eq_true, if_false]
  exact hc

lemma c1x1Loop : vmLoop 32 32 { stInit with fin := "xyzzy 1" } = c1x1S2 := by
  rw [vmLoop_cons 32 32 31 rfl _ c1x1S1 "xyzzy" " 1" (by decide) (by decide) (by decide)]
  rw [vmLoop_cons 32 31 30 rfl _ c1x1S2 "1" "" (by decide) (by decide) (by decide)]
  exact vmLoop_nil 32 30 29 rfl _ (by decide)

lemma c1x1Line : forth_line 3 "xyzzy 1" stInit = c1x1End := by
  have hv : forth_vm 32 "xyzzy 1" stInit = (false, ss_dump c1x1S2) :=
    forth_vm_eval 32 "xyzzy 1" stInit c1x1S2 (by decide) c1x1Loop (by decide) (by decide)
  exact (forth_line_of_vm 3 2 rfl "xyzzy 1" stInit (ss_dump c1x1S2) hv).trans (by decide)

lemma c2x1Loop : vmLoop 32 32 { stInit with fin := "xyzzy" } = c2x1S1 := by
  rw [vmLoop_cons 32 32 31 rfl _ c2x1S1 "xyzzy" "" (by decide) (by decide) (by decide)]
  exact vmLoop_nil 32 31 30 rfl _ (by decide)

lemma c2x1Line : forth_line 3 "xyzzy" stInit = c2x1End := by
  have hv : forth_vm 32 "xyzzy" stInit = (false, ss_dump c2x1S1) :=
    forth_vm_eval 32 "xyzzy" stInit c2x1S1 (by decide) c2x1Loop (by decide) (by decide)
  exact (forth_line_of_vm 3 2 rfl "xyzzy" stInit (ss_dump c2x1S1) hv).trans (by decide)

lemma c3u1Loop : vmLoop 32 32 { stInit with fin := "HEX 255 . DECIMAL 255 ." } = c3u1S6 := by
  rw [vmLoop_cons 32 32 31 rfl _ c3u1S1 "HEX" " 255 . DECIMAL 255 ." (by decide) (by decide) (by decide)]
  rw [vmLoop_cons 32 31 30 rfl _ c3u1S2 "255" " . DECIMAL 255 ." (by decide) (by decide) (by decide)]
  rw [vmLoop_cons 32 30 29 rfl _ c3u1S3 "." " DECIMAL 255 ." (by decide) (by decide) (by decide)]
  rw [vmLoop_cons 32 29 28 rfl _ c3u1S4 "DECIMAL" " 255 ." (by decide) (by decide) (by decide)]
  rw [vmLoop_cons 32 28 27 rfl _ c3u1S5 "255" " ." (by decide) (by decide) (by decide)]
  rw [vmLoop_cons 32 27 26 rfl _ c3u1S6 "." "" (by decide) (by decide) (by decide)]
  exact vmLoop_nil 32 26 25 rfl _ (by decide)

lemma c3u1Line : forth_line 3 "HEX 255 . DECIMAL 255 ." stInit = c3u1End := by
  have hv : forth_vm 32 "HEX 255 . DECIMAL 255 ." stInit = (false, ss_dump c3u1S6) :=
    forth_vm_eval 32 "HEX 255 . DECIMAL 255 ." stInit c3u1S6 (by decide) c3u1Loop (by decide) (by decide)
  exact (forth_line_of_vm 3 2 rfl "HEX 255 . DECIMAL 255 ." stInit (ss_dump c3u1S6) hv).trans (by decide)

lemma c3l1Loop : vmLoop 32 32 { stInit with fin := "hex 255 . decimal 255 ." } = c3l1S6 := by
  rw [vmLoop_cons 32 32 31 rfl _ c3l1S1 "hex" " 255 . decimal 255 ." (by decide) (by decide) (by decide)]
  rw [vmLoop_cons 32 31 30 rfl _ c3l1S2 "255" " . decimal 255 ." (by decide) (by decide) (by decide)]
  rw [vmLoop_cons 32 30 29 rfl _ c3l1S3 "." " decimal 255 ." (by decide) (by decide) (by decide)]
  rw [vmLoop_cons 32 29 28 rfl _ c3l1S4 "decimal" " 255 ." (by decide) (by decide) (by decide)]
  rw [vmLoop_cons 32 28 27 rfl _ c3l1S5 "255" " ." (by decide) (by decide) (by decide)]
  rw [vmLoop_cons 32 27 26 rfl _ c3l1S6 "." "" (by decide) (by decide) (by decide)]
  exact vmLoop_nil 32 26 25 rfl _ (by decide)

lemma c3l1Line : forth_line 3 "hex 255 . decimal 255 ." stInit = c3l1End := by
  have hv : forth_vm 32 "hex 255 . decimal 255 ." stInit = (false, ss_dump c3l1S6) :=
    forth_vm_eval 32 "hex 255 . decimal 255 ." stInit c3l1S6 (by decide) c3l1Loop (by decide) (by decide)
  exact (forth_line_of_vm 3 2 rfl "hex 255 . decimal 255 ." stInit (ss_dump c3l1S6) hv).trans (by decide)

lemma c5u1Loop : vmLoop 32 32 { stInit with fin := ": CONST CREATE , DOES> @ ;" } = c5u1S6 := by
  rw [vmLoop_cons 32 32 31 rfl _ c5u1S1 ":" " CONST CREATE , DOES> @ ;" (by decide) (by decide) (by decide)]
  rw [vmLoop_cons 32 31 30 rfl _ c5u1S2 "CREATE" " , DOES> @ ;" (by decide) (by decide) (by decide)]
  rw [vmLoop_cons 32 30 29 rfl _ c5u1S3 "," " DOES> @ ;" (by decide) (by decide) (by decide)]
  rw [vmLoop_cons 32 29 28 rfl _ c5u1S4 "DOES>" " @ ;" (by decide) (by decide) (by decide)]
  rw [vmLoop_cons 32 28 27 rfl _ c5u1S5 "@" " ;" (by decide) (by decide) (by decide)]
  rw [vmLoop_cons 32 27 26 rfl _ c5u1S6 ";" "" (by decide) (by decide) (by decide)]
  exact vmLoop_nil 32 26 25 rfl _ (by decide)

lemma c5u1Line : forth_line 3 ": CONST CREATE , DOES> @ ;" stInit = c5u1End := by
  have hv : forth_vm 32 ": CONST CREATE , DOES> @ ;" stInit = (false, ss_dump c5u1S6) :=
    forth_vm_eval 32 ": CONST CREATE , DOES> @ ;" stInit c5u1S6 (by decide) c5u1Loop (by decide) (by decide)
  exact (forth_line_of_vm 3 2 rfl ": CONST CREATE , DOES> @ ;" stInit (ss_dump c5u1S6) hv).trans (by decide)

lemma c5u2T1 : forth_core 32 "CONST" { c5u2S1 with pad := "CONST", fin := " Z" } = c5u2S2 := by
  refine forth_core_word 32 "CONST" _ _ 34 (by decide) (by decide) (by decide) ?_
  refine CALL_colon 32 34 _ _ (by decide) ?_
  rw [nestLoop_cons 32 31 rfl _ c5u2M1J1 (by decide) (by decide) (by decide)]
  rw [nestLoop_cons 31 30 rfl _ c5u2M1J2 (by decide) (by decide) (by decide)]
  rw [nestLoop_cons 30 29 rfl _ c5u2S2 (by decide) (by decide) (by decide)]
  exact nestLoop_stop 29 28 rfl _ (by decide)

lemma c5u2Loop : vmLoop 32 32 { c5u1End with fin := "99 CONST Z" } = c5u2S3 := by
  rw [vmLoop_cons 32 32 31 rfl _ c5u2S1 "99" " CONST Z" (by decide) (by decide) (by decide)]
  rw [vmLoop_cons 32 31 30 rfl _ c5u2S2 "CONST" " Z" (by decide) c5u2T1 (by decide)]
  rw [vmLoop_cons 32 30 29 rfl _ c5u2S3 "Z" "" (by decide) (by decide) (by decide)]
  exact vmLoop_nil 32 29 28 rfl _ (by decide)

lemma c5u2Line : forth_line 3 "99 CONST Z" c5u1End = c5u2End := by
  have hv : forth_vm 32 "99 CONST Z" c5u1End = (false, ss_dump c5u2S3) :=
    forth_vm_eval 32 "99 CONST Z" c5u1End c5u2S3 (by decide) c5u2Loop (by decide) (by decide)
  exact (forth_line_of_vm 3 2 rfl "99 CONST Z" c5u1End (ss_dump c5u2S3) hv).trans (by decide)

lemma c5u3Loop : vmLoop 32 32 { c5u2End with fin := "Z" } = c5u3S1 := by
  rw [vmLoop_cons 32 32 31 rfl _ c5u3S1 "Z" "" (by decide) (by decide) (by decide)]
  exact vmLoop_nil 32 31 30 rfl _ (by decide)

lemma c5u3Line : forth_line 3 "Z" c5u2End = c5u3End := by
  have hv : forth_vm 32 "Z" c5u2End = (false, ss_dump c5u3S1) :=
    forth_vm_eval 32 "Z" c5u2End c5u3S1 (by decide) c5u3Loop (by decide) (by decide)
  exact (forth_line_of_vm 3 2 rfl "Z" c5u2End (ss_dump c5u3S1) hv).trans (by decide)

lemma c5l1Loop : vmLoop 32 32 { stInit with fin := ": const create , does> @ ;" } = c5l1S6 := by
  rw [vmLoop_cons 32 32 31 rfl _ c5l1S1 ":" " const create , does> @ ;" (by decide) (by decide) (by decide)]
  rw [vmLoop_cons 32 31 30 rfl _ c5l1S2 "create" " , does> @ ;" (by decide) (by decide) (by decide)]
  rw [vmLoop_cons 32 30 29 rfl _ c5l1S3 "," " does> @ ;" (by decide) (by decide) (by decide)]
  rw [vmLoop_cons 32 29 28 rfl _ c5l1S4 "does>" " @ ;" (by decide) (by decide) (by decide)]
  rw [vmLoop_cons 32 28 27 rfl _ c5l1S5 "@" " ;" (by decide) (by decide) (by decide)]
  rw [vmLoop_cons 32 27 26 rfl _ c5l1S6 ";" "" (by decide) (by decide) (by decide)]
  exact vmLoop_nil 32 26 25 rfl _ (by decide)

lemma c5l1Line : forth_line 3 ": const create , does> @ ;" stInit = c5l1End := by
  have hv : forth_vm 32 ": const create , does> @ ;" stInit = (false, ss_dump c5l1S6) :=
    forth_vm_eval 32 ": const create , does> @ ;" stInit c5l1S6 (by decide) c5l1Loop (by decide) (by decide)
  exact (forth_line_of_vm 3 2 rfl ": const create , does> @ ;" stInit (ss_dump c5l1S6) hv).trans (by decide)

lemma c5l2T1 : forth_core 32 "const" { c5l2S1 with pad := "const", fin := " z" } = c5l2S2 := by
  refine forth_core_word 32 "const" _ _ 34 (by decide) (by decide) (by decide) ?_
  refine CALL_colon 32 34 _ _ (by decide) ?_
  rw [nestLoop_cons 32 31 rfl _ c5l2M1J1 (by decide) (by decide) (by decide)]
  rw [nestLoop_cons 31 30 rfl _ c5l2M1J2 (by decide) (by decide) (by decide)]
  rw [nestLoop_cons 30 29 rfl _ c5l2S2 (by decide) (by decide) (by decide)]
  exact nestLoop_stop 29 28 rfl _ (by decide)

lemma c5l2Loop : vmLoop 32 32 { c5l1End with fin := "99 const z" } = c5l2S2 := by
  rw [vmLoop_cons 32 32 31 rfl _ c5l2S1 "99" " const z" (by decide) (by decide) (by decide)]
  rw [vmLoop_cons 32 31 30 rfl _ c5l2S2 "const" " z" (by decide) c5l2T1 (by decide)]
  exact vmLoop_nil 32 30 29 rfl _ (by decide)

lemma c5l2Line : forth_line 3 "99 const z" c5l1End = c5l2End := by
  have hv : forth_vm 32 "99 const z" c5l1End = (false, ss_dump c5l2S2) :=
    forth_vm_eval 32 "99 const z" c5l1End c5l2S2 (by decide) c5l2Loop (by decide) (by decide)
  exact (forth_line_of_vm 3 2 rfl "99 const z" c5l1End (ss_dump c5l2S2) hv).trans (by decide)

lemma c5l3T0 : forth_core 32 "z" { { c5l2End with fin := "z" } with pad := "z", fin := "" } = c5l3S1 := by
  refine forth_core_word 32 "z" _ _ 35 (by decide) (by decide) (by decide) ?_
  refine CALL_colon 32 35 _ _ (by decide) ?_
  rw [nestLoop_cons 32 31 rfl _ c5l3M0J1 (by decide) (by decide) (by decide)]
  rw [nestLoop_cons 31 30 rfl _ c5l3M0J2 (by decide) (by decide) (by decide)]
  rw [nestLoop_cons 30 29 rfl _ c5l3S1 (by decide) (by decide) (by decide)]
  exact nestLoop_stop 29 28 rfl _ (by decide)

lemma c5l3Loop : vmLoop 32 32 { c5l2End with fin := "z" } = c5l3S1 := by
  rw [vmLoop_cons 32 32 31 rfl _ c5l3S1 "z" "" (by decide) c5l3T0 (by decide)]
  exact vmLoop_nil 32 31 30 rfl _ (by decide)

lemma c5l3Line : forth_line 3 "z" c5l2End = c5l3End := by
  have hv : forth_vm 32 "z" c5l2End = (false, ss_dump c5l3S1) :=
    forth_vm_eval 32 "z" c5l2End c5l3S1 (by decide) c5l3Loop (by decide) (by decide)
  exact (forth_line_of_vm 3 2 rfl "z" c5l2End (ss_dump c5l3S1) hv).trans (by decide)

lemma c6u1Loop : vmLoop 32 32 { stInit with fin := ": T 5 0 DO I LOOP ;" } = c6u1S7 := by
  rw [vmLoop_cons 32 32 31 rfl _ c6u1S1 ":" " T 5 0 DO I LOOP ;" (by decide) (by decide) (by decide)]
  rw [vmLoop_cons 32 31 30 rfl _ c6u1S2 "5" " 0 DO I LOOP ;" (by decide) (by decide) (by decide)]
  rw [vmLoop_cons 32 30 29 rfl _ c6u1S3 "0" " DO I LOOP ;" (by decide) (by decide) (by decide)]
  rw [vmLoop_cons 32 29 28 rfl _ c6u1S4 "DO" " I LOOP ;" (by decide) (by decide) (by decide)]
  rw [vmLoop_cons 32 28 27 rfl _ c6u1S5 "I" " LOOP ;" (by decide) (by decide) (by decide)]
  rw [vmLoop_cons 32 27 26 rfl _ c6u1S6 "LOOP" " ;" (by decide) (by decide) (by decide)]
  rw [vmLoop_cons 32 26 25 rfl _ c6u1S7 ";" "" (by decide) (by decide) (by decide)]
  exact vmLoop_nil 32 25 24 rfl _ (by decide)

lemma c6u1Line : forth_line 3 ": T 5 0 DO I LOOP ;" stInit = c6u1End := by
  have hv : forth_vm 32 ": T 5 0 DO I LOOP ;" stInit = (false, ss_dump c6u1S7) :=
    forth_vm_eval 32 ": T 5 0 DO I LOOP ;" stInit c6u1S7 (by decide) c6u1Loop (by decide) (by decide)
  exact (forth_line_of_vm 3 2 rfl ": T 5 0 DO I LOOP ;" stInit (ss_dump c6u1S7) hv).trans (by decide)

lemma c6u2T0 : forth_core 32 "T" { { c6u1End with fin := "T" } with pad := "T", fin := "" } = c6u2S1 := by
  refine forth_core_word 32 "T" _ _ 34 (by decide) (by decide) (by decide) ?_
  refine CALL_colon 32 34 _ _ (by decide) ?_
  rw [nestLoop_cons 32 31 rfl _ c6u2M0J1 (by decide) (by decide) (by decide)]
  rw [nestLoop_cons 31 30 rfl _ c6u2M0J2 (by decide) (by decide) (by decide)]
  rw [nestLoop_cons 30 29 rfl _ c6u2S1 (by decide) (by decide) (by decide)]
  exact nestLoop_stop 29 28 rfl _ (by decide)

lemma c6u2Loop : vmLoop 32 32 { c6u1End with fin := "T" } = c6u2S1 := by
  rw [vmLoop_cons 32 32 31 rfl _ c6u2S1 "T" "" (by decide) c6u2T0 (by decide)]
  exact vmLoop_nil 32 31 30 rfl _ (by decide)

lemma c6u2Line : forth_line 3 "T" c6u1End = c6u2End := by
  have hv : forth_vm 32 "T" c6u1End = (false, ss_dump c6u2S1) :=
    forth_vm_eval 32 "T" c6u1End c6u2S1 (by decide) c6u2Loop (by decide) (by decide)
  exact (forth_line_of_vm 3 2 rfl "T" c6u1End (ss_dump c6u2S1) hv).trans (by decide)

lemma c6l1Loop : vmLoop 32 32 { stInit with fin := ": t 5 0 do i loop ;" } = c6l1S7 := by
  rw [vmLoop_cons 32 32 31 rfl _ c6l1S1 ":" " t 5 0 do i loop ;" (by decide) (by decide) (by decide)]
  rw [vmLoop_cons 32 31 30 rfl _ c6l1S2 "5" " 0 do i loop ;" (by decide) (by decide) (by decide)]
  rw [vmLoop_cons 32 30 29 rfl _ c6l1S3 "0" " do i loop ;" (by decide) (by decide) (by decide)]
  rw [vmLoop_cons 32 29 28 rfl _ c6l1S4 "do" " i loop ;" (by decide) (by decide) (by decide)]
  rw [vmLoop_cons 32 28 27 rfl _ c6l1S5 "i" " loop ;" (by decide) (by decide) (by decide)]
  rw [vmLoop_cons 32 27 26 rfl _ c6l1S6 "loop" " ;" (by decide) (by decide) (by decide)]
  rw [vmLoop_cons 32 26 25 rfl _ c6l1S7 ";" "" (by decide) (by decide) (by decide)]
  exact vmLoop_nil 32 25 24 rfl _ (by decide)

lemma c6l1Line : forth_line 3 ": t 5 0 do i loop ;" stInit = c6l1End := by
  have hv : forth_vm 32 ": t 5 0 do i loop ;" stInit = (false, ss_dump c6l1S7) :=
    forth_vm_eval 32 ": t 5 0 do i loop ;" stInit c6l1S7 (by decide) c6l1Loop (by decide) (by decide)
  exact (forth_line_of_vm 3 2 rfl ": t 5 0 do i loop ;" stInit (ss_dump c6l1S7) hv).trans (by decide)

lemma c6l2T0 : forth_core 32 "t" { { c6l1End with fin := "t" } with pad := "t", fin := "" } = c6l2S1 := by
  refine forth_core_word 32 "t" _ _ 34 (by decide) (by decide) (by decide) ?_
  refine CALL_colon 32 34 _ _ (by decide) ?_
  rw [nestLoop_cons 32 31 rfl _ c6l2M0J1 (by decide) (by decide) (by decide)]
  rw [nestLoop_cons 31 30 rfl _ c6l2M0J2 (by decide) (by decide) (by decide)]
  rw [nestLoop_cons 30 29 rfl _ c6l2M0J3 (by decide) (by decide) (by decide)]
  rw [nestLoop_cons 29 28 rfl _ c6l2M0J4 (by decide) (by decide) (by decide)]
  rw [nestLoop_cons 28 27 rfl _ c6l2M0J5 (by decide) (by decide) (by decide)]
  rw [nestLoop_cons 27 26 rfl _ c6l2M0J6 (by decide) (by decide) (by decide)]
  rw [nestLoop_cons 26 25 rfl _ c6l2M0J7 (by decide) (by decide) (by decide)]
  rw [nestLoop_cons 25 24 rfl _ c6l2M0J8 (by decide) (by decide) (by decide)]
  rw [nestLoop_cons 24 23 rfl _ c6l2M0J9 (by decide) (by decide) (by decide)]
  rw [nestLoop_cons 23 22 rfl _ c6l2M0J10 (by decide) (by decide) (by decide)]
  rw [nestLoop_cons 22 21 rfl _ c6l2M0J11 (by decide) (by decide) (by decide)]
  rw [nestLoop_cons 21 20 rfl _ c6l2M0J12 (by decide) (by decide) (by decide)]
  rw [nestLoop_cons 20 19 rfl _ c6l2M0J13 (by decide) (by decide) (by decide)]
  rw [nestLoop_cons 19 18 rfl _ c6l2S1 (by decide) (by decide) (by decide)]
  exact nestLoop_stop 18 17 rfl _ (by decide)

lemma c6l2Loop : vmLoop 32 32 { c6l1End with fin := "t" } = c6l2S1 := by
  rw [vmLoop_cons 32 32 31 rfl _ c6l2S1 "t" "" (by decide) c6l2T0 (by decide)]
  exact vmLoop_nil 32 31 30 rfl _ (by decide)

lemma c6l2Line : forth_line 3 "t" c6l1End = c6l2End := by
  have hv : forth_vm 32 "t" c6l1End = (false, ss_dump c6l2S1) :=
    forth_vm_eval 32 "t" c6l1End c6l2S1 (by decide) c6l2Loop (by decide) (by decide)
  exact (forth_line_of_vm 3 2 rfl "t" c6l1End (ss_dump c6l2S1) hv).trans (by decide)

lemma streq_self (uc : Bool) (s : String) : streq uc s s = true := by
  cases uc <;> simp [streq]

lemma getD_push_size (a : Array Code) (x : Code) (d : Code) :
    (a.push x).getD a.size d = x := by
  have h : a.size < (a.push x).size := by
    simp [Array.size_push]
  simp [Array.getD, h, Array.getElem_push_eq]

lemma findGo_hit (d : Array Code) (uc : Bool) (s : String) (i : Nat)
    (h : streq uc s ((d.getD (i + 1) defaultCode).name) = true) :
    findGo d uc s (i + 1) = i + 1 := by
  simp only [findGo, h]
  simp

lemma findGo_pos (d : Array Code) (uc : Bool) (s : String) (k : Nat)
    (h : findGo d uc s k ≠ 0) : 1 ≤ k := by
  cases k with
  | zero => simp [findGo] at h
  | succ n => omega

lemma find_push_self (d : Array Code) (uc : Bool) (nm : String) (xt a pf : Nat)
    (hd : 1 ≤ d.size) :
    findGo (d.push ⟨nm, xt, a, pf⟩) uc nm ((d.push ⟨nm, xt, a, pf⟩).size - 1)
      = d.size := by
  obtain ⟨j, hj⟩ : ∃ j, d.size = j + 1 := ⟨d.size - 1, by omega⟩
  rw [Array.size_push, Nat.add_sub_cancel, hj]
  refine findGo_hit _ _ _ j ?_
  rw [← hj, getD_push_size]
  exact streq_self _ _

lemma le_dalign (x : Nat) : x ≤ dalign x := by
  have h := Nat.div_add_mod (x + 3) 4
  have h2 : (x + 3) % 4 < 4 := Nat.mod_lt _ (by norm_num)
  unfold dalign
  omega

/-- C1: the claim says a token that is neither a word nor a number abandons
the rest of the input line.  In the source, forth_core does set VM=STOP (its
comment reads "skip the entire input buffer"), but the token loop of
forth_vm never tests for STOP, so the remaining tokens are still looked up
and executed: after the unknown token xyzzy, the literal 1 on the same line
is still parsed and pushed (final cached top = 1), and the following token's
forth_core call resets VM back to QUERY. -/
theorem C1_rest_of_line_still_executed :
    (runLines ["xyzzy 1"]).top = 1 ∧
    strContains (runLines ["xyzzy 1"]).out "xyzzy? " = true ∧
    (runLines ["xyzzy 1"]).vm = VMState.query := by
  have hrun : runLines ["xyzzy 1"] = c1x1End := by
    simp only [runLines, List.foldl]
    rw [init_eq, c1x1Line]
  rw [hrun]
  exact ⟨by decide, by decide, by decide⟩

/-- C2: the claim says a failed lookup plus failed number parse pushes no
value.  The source's error branch lacks the early return: it prints and
clears the compile flag, then falls through into the "is a number" code,
whose interpret path PUSH(n) runs with strtol's return value 0 — so the
stack does grow: the previous cached top (-1) is stashed on ss and the
cached top becomes 0. -/
theorem C2_parse_error_still_pushes :
    (runLines ["xyzzy"]).ss = #[-1] ∧
    (runLines ["xyzzy"]).top = 0 ∧
    (runLines ["xyzzy"]).out = "xyzzy? " ++ "\n" ++ "ok" ++ "\n" ∧
    (runLines ["xyzzy"]).compile = false := by
  have hrun : runLines ["xyzzy"] = c2x1End := by
    simp only [runLines, List.foldl]
    rw [init_eq, c2x1Line]
  rw [hrun]
  exact ⟨by decide, by decide, by decide, by decide⟩

/-- C3 counterexample: processing the exact claimed line from the initial
state does not produce ff 255 anywhere in the output.  find is
case-sensitive by default (ucase = false uses strcmp) and the dictionary
names are lowercase, so HEX and DECIMAL are unknown words. -/
theorem C3_no_ff_255_in_output :
    strContains (runLines ["HEX 255 . DECIMAL 255 ."]).out "ff 255" = false := by
  have hrun : runLines ["HEX 255 . DECIMAL 255 ."] = c3u1End := by
    simp only [runLines, List.foldl]
    rw [init_eq, c3u1Line]
  rw [hrun]
  decide

/-- C3 amended: with the lowercase spellings the dictionary actually holds,
the line prints 255 255 — the token 255 after hex is parsed in base 16 as
597 and printed back in hex as 255, then parsed and printed as decimal
255.  The claimed ff 255 would require parsing in decimal while printing in
hex, which is not what the code does. -/
theorem C3_lowercase_prints_255_255 :
    strContains (runLines ["hex 255 . decimal 255 ."]).out "255 255" = true := by
  have hrun : runLines ["hex 255 . decimal 255 ."] = c3l1End := by
    simp only [runLines, List.foldl]
    rw [init_eq, c3l1Line]
  rw [hrun]
  decide

/-- C4: the claim says forth_init is idempotent.  The source guards the body
with a static flag that is initialized to false but never assigned true, so
a second call re-runs the body: it appends fresh base and dflt cells at the
current HERE (16 grows to 20), repoints the base pointer there, and
recompiles the whole built-in dictionary, doubling dict.idx. -/
theorem C4_forth_init_not_idempotent :
    (forth_init st0).pidx = 16 ∧
    (forth_init (forth_init st0)).pidx = 20 ∧
    (forth_init (forth_init st0)).dict.size = 2 * (forth_init st0).dict.size ∧
    (forth_init (forth_init st0)).baseOfs = 16 ∧
    forth_init (forth_init st0) ≠ forth_init st0 := by
  rw [init_eq]
  exact ⟨by decide, by decide, by decide, by decide, by decide⟩

/-- C5 counterexample: the claimed session, processed verbatim from the
initial state, leaves 0 on top, not 99.  find is case-sensitive, so CREATE,
DOES> and Z are unknown words (the output shows the CREATE? error) and the
CREATE/DOES> machinery never runs. -/
theorem C5_uppercase_leaves_0 :
    (runLines [": CONST CREATE , DOES> @ ;", "99 CONST Z", "Z"]).top = 0 ∧
    (runLines [": CONST CREATE , DOES> @ ;", "99 CONST Z", "Z"]).top ≠ 99 ∧
    strContains (runLines [": CONST CREATE , DOES> @ ;", "99 CONST Z", "Z"]).out
      "CREATE? " = true := by
  have hrun : runLines [": CONST CREATE , DOES> @ ;", "99 CONST Z", "Z"] = c5u3End := by
    simp only [runLines, List.foldl]
    rw [init_eq, c5u1Line, c5u2Line, c5u3Line]
  rw [hrun]
  exact ⟨by decide, by decide, by decide⟩

/-- C5 amended: with the lowercase spellings the dictionary holds, the
CREATE/DOES> mechanism works exactly as claimed: the created word's VBRAN
pushes its data-cell address, jumps to the DOES> body recorded by the DOES
opcode, and the fetch leaves the stored 99 as the cached top with the
parameter stack otherwise undisturbed. -/
theorem C5_lowercase_create_does_gives_99 :
    (runLines [": const create , does> @ ;", "99 const z", "z"]).top = 99 ∧
    (runLines [": const create , does> @ ;", "99 const z", "z"]).ss = #[-1] := by
  have hrun : runLines [": const create , does> @ ;", "99 const z", "z"] = c5l3End := by
    simp only [runLines, List.foldl]
    rw [init_eq, c5l1Line, c5l2Line, c5l3Line]
  rw [hrun]
  exact ⟨by decide, by decide⟩

/-- C6 counterexample: the claimed definition, processed verbatim, does not
push 0 1 2 3 4.  DO, I and LOOP are unknown (case-sensitive find), each
prints an error and pushes 0, and the compiled body of T is just the two
literals and EXIT, so running T ends with cached top 5 pushed then 0 — the
final top is 0, where the claim requires the last pushed index 4. -/
theorem C6_uppercase_do_loop_fails :
    (runLines [": T 5 0 DO I LOOP ;", "T"]).top = 0 ∧
    (runLines [": T 5 0 DO I LOOP ;", "T"]).top ≠ 4 ∧
    strContains (runLines [": T 5 0 DO I LOOP ;", "T"]).out "DO? " = true := by
  have hrun : runLines [": T 5 0 DO I LOOP ;", "T"] = c6u2End := by
    simp only [runLines, List.foldl]
    rw [init_eq, c6u1Line, c6u2Line]
  rw [hrun]
  exact ⟨by decide, by decide, by decide⟩

/-- C6 amended: the lowercase definition behaves exactly as the claim
describes: do moves limit 5 and index 0 to the return stack with the index
on top, loop increments the index and iterates while limit is greater, and
running t leaves 0 1 2 3 4 pushed in order (4 is the cached top). -/
theorem C6_lowercase_do_loop_pushes_0_to_4 :
    (runLines [": t 5 0 do i loop ;", "t"]).ss = #[-1, 0, 1, 2, 3] ∧
    (runLines [": t 5 0 do i loop ;", "t"]).top = 4 := by
  have hrun : runLines [": t 5 0 do i loop ;", "t"] = c6l2End := by
    simp only [runLines, List.foldl]
    rw [init_eq, c6l1Line, c6l2Line]
  rw [hrun]
  exact ⟨by decide, by decide⟩

/-- C7: in interpret mode, the s-quote word pushes the PMEM offset of the
transient copy of the scanned string (the old HERE) and then its stored
length (STRLEN: strlen+1 rounded up to IU alignment), and it leaves the PMEM
write offset HERE exactly where it was: the transient copy gains no
permanent PMEM space.  The input scan consumes the string from fin, as any
parsing word must. -/
theorem C7_s_quote_interpret_frame (st : VMSt) (h : st.compile = false) :
    (s_quote oSTR st).pidx = st.pidx ∧
    (s_quote oSTR st).ss = (st.ss.push st.top).push (Int.ofNat st.pidx) ∧
    (s_quote oSTR st).top = Int.ofNat (STRLEN ((scanStr st.fin '"').1.drop 1)) := by
  simp [s_quote, scan, add_str, PUSH, h]

/-- C7 witness: the theorem applied to a concrete interpret-mode state. -/
theorem C7_s_quote_witness :
    stC7.compile = false ∧
    ((s_quote oSTR stC7).pidx = stC7.pidx ∧
     (s_quote oSTR stC7).ss = (stC7.ss.push stC7.top).push (Int.ofNat stC7.pidx) ∧
     (s_quote oSTR stC7).top = Int.ofNat (STRLEN ((scanStr stC7.fin '"').1.drop 1))) :=
  ⟨by decide, C7_s_quote_interpret_frame stC7 (by decide)⟩

/-- C8: redefining an existing name prints the name followed by reDef?, yet
still creates the new dictionary entry, and a subsequent find returns the
newer entry: the backward scan hits the freshly pushed entry first (its
index is the old dictionary size). -/
theorem C8_redefinition_warns_and_creates (st : VMSt) (name : String)
    (h1 : name ≠ "") (h2 : find st name ≠ 0) :
    (def_word name st).1 = 1 ∧
    (def_word name st).2.dict.size = st.dict.size + 1 ∧
    (def_word name st).2.out = st.out ++ (name ++ " reDef? " ++ ENDL) ∧
    find (def_word name st).2 name = st.dict.size := by
  have e : def_word name st
      = (1, colon name (emit st (name ++ " reDef? " ++ ENDL))) := by
    unfold def_word
    rw [if_neg h1, if_pos h2]
  have hsz := findGo_pos st.dict st.ucase name (st.dict.size - 1) h2
  rw [e]
  refine ⟨rfl, ?_, ?_, ?_⟩
  · simp [colon, add_str, emit, Array.size_push]
  · simp [colon, add_str, emit]
  · show find (colon name (emit st (name ++ " reDef? " ++ ENDL))) name
      = st.dict.size
    simp only [find, colon, add_str, emit]
    exact find_push_self st.dict st.ucase name 0 UDF_ATTR _ (by omega)

/-- C8 witness: redefining the built-in dup after forth_init. -/
theorem C8_redefinition_witness :
    ("dup" ≠ "" ∧ find stC8 "dup" ≠ 0) ∧
    ((def_word "dup" stC8).1 = 1 ∧
     (def_word "dup" stC8).2.dict.size = stC8.dict.size + 1 ∧
     (def_word "dup" stC8).2.out = stC8.out ++ ("dup" ++ " reDef? " ++ ENDL) ∧
     find (def_word "dup" stC8).2 "dup" = stC8.dict.size) :=
  ⟨⟨by decide, by decide⟩,
   C8_redefinition_warns_and_creates stC8 "dup" (by decide) (by decide)⟩

/-- C9: when the token after the tick word is not in the dictionary, tick
pushes nothing and prints nothing: every component of the VM state is
unchanged except the input cursor (fin/pad), which any parsing word must
consume to read its token.  The lookup failure is silent. -/
theorem C9_tick_unknown_is_silent (st : VMSt)
    (h : find st (tokOf st.fin) = 0) :
    (tickB st).ss = st.ss ∧ (tickB st).top = st.top ∧ (tickB st).rs = st.rs ∧
    (tickB st).dict = st.dict ∧ (tickB st).pmem = st.pmem ∧
    (tickB st).pidx = st.pidx ∧ (tickB st).out = st.out ∧
    (tickB st).compile = st.compile ∧ (tickB st).vm = st.vm ∧
    (tickB st).ip = st.ip ∧ (tickB st).obase = st.obase ∧
    (tickB st).baseOfs = st.baseOfs ∧ (tickB st).dfltOfs = st.dfltOfs ∧
    (tickB st).ucase = st.ucase := by
  cases hw : extractToken st.fin with
  | none =>
    simp only [tokOf, hw] at h
    simp [tickB, word, hw, find] at h ⊢
    simp [h]
  | some p =>
    simp only [tokOf, hw] at h
    simp [tickB, word, hw, find] at h ⊢
    simp [h]

/-- C9 witness: the theorem applied to a state whose next token is unknown. -/
theorem C9_tick_witness :
    find stC9 (tokOf stC9.fin) = 0 ∧
    ((tickB stC9).ss = stC9.ss ∧ (tickB stC9).top = stC9.top ∧
     (tickB stC9).rs = stC9.rs ∧ (tickB stC9).dict = stC9.dict ∧
     (tickB stC9).pmem = stC9.pmem ∧ (tickB stC9).pidx = stC9.pidx ∧
     (tickB stC9).out = stC9.out ∧ (tickB stC9).compile = stC9.compile ∧
     (tickB stC9).vm = stC9.vm ∧ (tickB stC9).ip = stC9.ip ∧
     (tickB stC9).obase = stC9.obase ∧ (tickB stC9).baseOfs = stC9.baseOfs ∧
     (tickB stC9).dfltOfs = stC9.dfltOfs ∧ (tickB stC9).ucase = stC9.ucase) :=
  ⟨by decide, C9_tick_unknown_is_silent stC9 (by decide)⟩

/-- C10: when VARIABLE finds no next token, def_word prints the name? error
and creates no dictionary entry, but variable ignores def_word's return
value and still runs add_var(VAR): the VAR header IU and the aligned
zero-initialized data cell are appended to PMEM, so HERE advances from pidx
to dalign(pidx + 2) + 4 even though no word was created. -/
theorem C10_variable_missing_name (st : VMSt)
    (h : extractToken st.fin = none) :
    (variableB st).dict = st.dict ∧
    (variableB st).out = st.out ++ (" name?" ++ ENDL) ∧
    (variableB st).pidx = dalign (st.pidx + 2) + 4 ∧
    st.pidx < (variableB st).pidx := by
  have e3 : (variableB st).pidx = dalign (st.pidx + 2) + 4 := by
    simp [variableB, word, h, def_word, emit, add_var, add_w, add_iu, add_du,
      oVAR, oVBRAN]
  refine ⟨?_, ?_, e3, ?_⟩
  · simp [variableB, word, h, def_word, emit, add_var, add_w, add_iu, add_du,
      oVAR, oVBRAN]
  · simp [variableB, word, h, def_word, emit, add_var, add_w, add_iu, add_du,
      oVAR, oVBRAN]
  · have := le_dalign (st.pidx + 2)
    omega

/-- C10 witness: variable at the end of the input line. -/
theorem C10_variable_witness :
    extractToken stC10.fin = none ∧
    ((variableB stC10).dict = stC10.dict ∧
     (variableB stC10).out = stC10.out ++ (" name?" ++ ENDL) ∧
     (variableB stC10).pidx = dalign (stC10.pidx + 2) + 4 ∧
     stC10.pidx < (variableB stC10).pidx) :=
  ⟨by decide, C10_variable_missing_name stC10 (by decide)⟩
